import Mathlib

/-!
# NetworkManager: the PPP manager, remote settings and the activation request

A shallow embedding of src/ppp-manager/nm-ppp-manager.c (the pppd
command-line builder, the start/stop life cycle of `NMPPPManager`, the
exit-code table, the IP4Config signal parser, the watchdog), of
libnm/nm-remote-connection.c and libnm/nm-remote-settings.c (visibility of
connections, pending waits for connections) and of the stages of
src/nm-activation-request.h, followed by the properties proved about them.

Conventions of the embedding
* A C string is a `String`; a `char *` that may be `NULL` is an `Option String`.
* A `GPtrArray` of strings is a `List String`; the `NULL` that terminates an
  argument vector is the end of the list.
* `gboolean` fields are `Bool` (the code only tests them for truth).
* Calls into GLib, D-Bus and the kernel are not executed: their results are
  read from an explicit environment and the calls made are returned as a log.
-/

namespace NetworkManager

/-! ## Command line -/

/-- The error domain and code of a `GError`, and its message.  A `GQuark` is
represented by the string it was interned from. -/
structure GError where
  domain : String
  code : String
  message : String
deriving DecidableEq, Repr

/-- Quark string of `nm_ppp_manager_error_quark`. -/
def NM_PPP_MANAGER_ERROR : String := "nm_ppp_manager_error"

/-- The fields of `NMSettingPPP` that `create_pppd_cmd_line` reads.  Its
declaration (nm-setting-ppp.h) is not among the sources, so the fields are
listed in the order in which the function reads them.  A numeric field holds
the value as the `int` that `nm_cmd_line_add_int` receives. -/
structure NMSettingPPP where
  baud : Int
  noauth : Bool
  refuse_eap : Bool
  refuse_chap : Bool
  refuse_mschap : Bool
  nobsdcomp : Bool
  nodeflate : Bool
  require_mppe : Bool
  require_mppe_128 : Bool
  mppe_stateful : Bool
  crtscts : Bool
  usepeerdns : Bool
  mru : Int
  mtu : Int
  lcp_echo_failure : Int
  lcp_echo_interval : Int
deriving DecidableEq, Repr

/-- `NMCmdLine`: the pointer array of arguments (the string chunk only owns
the storage of the strings). -/
structure NMCmdLine where
  array : List String
deriving DecidableEq, Repr

/-- `nm_cmd_line_new`. -/
def nm_cmd_line_new : NMCmdLine := ⟨[]⟩

/-- `nm_cmd_line_add_string`: `g_ptr_array_add` of a copy of `str`. -/
def nm_cmd_line_add_string (cmd : NMCmdLine) (str : String) : NMCmdLine :=
  ⟨cmd.array ++ [str]⟩

/-- `nm_cmd_line_add_int`: the integer printed with `%d`. -/
def nm_cmd_line_add_int (cmd : NMCmdLine) (i : Int) : NMCmdLine :=
  nm_cmd_line_add_string cmd (toString i)

/-- `nm_cmd_line_to_str`: the arguments joined by single blanks (the array is
left as it was: the `NULL` added for `g_strjoinv` is removed again). -/
def nm_cmd_line_to_str (cmd : NMCmdLine) : String :=
  " ".intercalate cmd.array

/-- The table `pppd_binary_paths` of `nm_find_pppd`, without its final `NULL`. -/
def pppd_binary_paths : List String :=
  ["/usr/local/sbin/pppd", "/usr/sbin/pppd", "/sbin/pppd"]

/-- `nm_find_pppd`: the first path of the table for which
`g_file_test (path, G_FILE_TEST_EXISTS)` holds, `NULL` when there is none. -/
def nm_find_pppd (g_file_test : String → Bool) : Option String :=
  pppd_binary_paths.find? g_file_test

/-- `NM_PPPD_PLUGIN`, that is `LIBDIR "/nm-pppd-plugin.so"`; `LIBDIR` comes
from the build system. -/
def NM_PPPD_PLUGIN (LIBDIR : String) : String := LIBDIR ++ "/nm-pppd-plugin.so"

/-- `create_pppd_cmd_line`.  Every `if` of the source is one line here, with
the condition and the string of the source. -/
def create_pppd_cmd_line (g_file_test : String → Bool) (LIBDIR : String)
    (setting : NMSettingPPP) (device : String) : Except GError NMCmdLine :=
  match nm_find_pppd g_file_test with
  | none =>
    .error ⟨NM_PPP_MANAGER_ERROR, NM_PPP_MANAGER_ERROR, "Could not find ppp binary."⟩
  | some ppp_binary =>
    let cmd := nm_cmd_line_new
    let cmd := nm_cmd_line_add_string cmd ppp_binary
    let cmd := nm_cmd_line_add_string cmd "nodetach"
    let cmd := nm_cmd_line_add_string cmd "lock"
    let cmd := nm_cmd_line_add_string cmd device
    let cmd := if setting.baud ≠ 0 then nm_cmd_line_add_int cmd setting.baud else cmd
    let cmd := if setting.noauth then nm_cmd_line_add_string cmd "noauth" else cmd
    let cmd := if setting.noauth then nm_cmd_line_add_string cmd "refuse-eap" else cmd
    let cmd := if setting.refuse_eap then nm_cmd_line_add_string cmd "refuse-chap" else cmd
    let cmd := if setting.refuse_chap then nm_cmd_line_add_string cmd "refuse-mschap" else cmd
    let cmd := if setting.refuse_mschap then nm_cmd_line_add_string cmd "nobsdcomp" else cmd
    let cmd := if setting.nobsdcomp then nm_cmd_line_add_string cmd "nodeflate" else cmd
    let cmd := if setting.nodeflate then nm_cmd_line_add_string cmd "require-mppe" else cmd
    let cmd := if setting.require_mppe then nm_cmd_line_add_string cmd "require-mppe-128" else cmd
    let cmd := if setting.require_mppe_128 then nm_cmd_line_add_string cmd "mppe-stateful" else cmd
    let cmd := if setting.mppe_stateful then nm_cmd_line_add_string cmd "require-mppc" else cmd
    let cmd := if setting.crtscts then nm_cmd_line_add_string cmd "crtscts" else cmd
    let cmd := if setting.usepeerdns then nm_cmd_line_add_string cmd "usepeerdns" else cmd
    let cmd := if setting.mru ≠ 0 then
      nm_cmd_line_add_int (nm_cmd_line_add_string cmd "mru") setting.mru else cmd
    let cmd := if setting.mtu ≠ 0 then
      nm_cmd_line_add_int (nm_cmd_line_add_string cmd "mtu") setting.mtu else cmd
    let cmd := if setting.lcp_echo_failure ≠ 0 then
      nm_cmd_line_add_int (nm_cmd_line_add_string cmd "lcp-echo-failure") setting.lcp_echo_failure
      else cmd
    let cmd := if setting.lcp_echo_interval ≠ 0 then
      nm_cmd_line_add_int (nm_cmd_line_add_string cmd "lcp-echo-interval") setting.lcp_echo_interval
      else cmd
    let cmd := nm_cmd_line_add_string cmd "plugin"
    let cmd := nm_cmd_line_add_string cmd (NM_PPPD_PLUGIN LIBDIR)
    .ok cmd

/-! ## The manager and its life cycle -/

/-- `NM_PPP_WAIT_PPPD`: 10 seconds, in milliseconds. -/
def NM_PPP_WAIT_PPPD : Nat := 10000

/-- `SIGTERM`. -/
def SIGTERM : Nat := 15

/-- A reference to the D-Bus manager object. -/
structure NMDBusManager where
  id : Nat
deriving DecidableEq, Repr

/-- `NMPPPManagerPrivate`; a `NULL` `dbus_manager` is `none`. -/
structure NMPPPManagerPrivate where
  pid : Int
  dbus_manager : Option NMDBusManager
  signal_handler : Nat
  ppp_timeout_handler : Nat
  name_owner_changed_handler : Nat
deriving DecidableEq, Repr

/-- The private data of a manager that `nm_ppp_manager_new` returns:
`nm_ppp_manager_init` is empty and GObject zero-fills the instance. -/
def nm_ppp_manager_new : NMPPPManagerPrivate := ⟨0, none, 0, 0, 0⟩

/-- The calls the manager makes into GLib, the D-Bus manager and the kernel,
with their arguments. -/
inductive Call where
  | g_spawn_async (argv : List String)
  | g_child_watch_source_new (pid : Int)
  | g_timeout_add (interval : Nat)
  | nm_dbus_manager_get
  | g_signal_connect (instance_ : NMDBusManager) (detailed_signal : String)
  | g_source_remove (tag : Nat)
  | nm_dbus_manager_remove_signal_handler (mgr : Option NMDBusManager) (id : Nat)
  | g_signal_handler_disconnect (instance_ : NMDBusManager) (handler_id : Nat)
  | g_object_unref (object : NMDBusManager)
  | kill (pid : Int) (sig : Nat)
  | nm_dbus_manager_register_signal_handler (mgr : Option NMDBusManager)
      (interface sender : String)
deriving DecidableEq, Repr

/-- What the world outside the manager answers.  `g_spawn_async` either fails
with an error, leaving `*child_pid` as it was, or stores the pid of the child.
`pid_local` is the value of the local variable `pid` of
`nm_ppp_manager_start`, which the function reads without having set it. -/
structure Env where
  g_file_test : String → Bool
  LIBDIR : String
  g_spawn_async : List String → Except GError Int
  pid_local : Int
  g_timeout_add : Nat
  nm_dbus_manager_get : NMDBusManager
  g_signal_connect : Nat

/-- `start_dbus_watcher`. -/
def start_dbus_watcher (env : Env) (priv : NMPPPManagerPrivate) :
    NMPPPManagerPrivate × List Call :=
  let priv := { priv with ppp_timeout_handler := env.g_timeout_add }
  let priv := { priv with dbus_manager := some env.nm_dbus_manager_get }
  let priv := { priv with name_owner_changed_handler := env.g_signal_connect }
  (priv, [.g_timeout_add NM_PPP_WAIT_PPPD, .nm_dbus_manager_get,
          .g_signal_connect env.nm_dbus_manager_get "name-owner-changed"])

/-- What `nm_ppp_manager_start` leaves behind: its return value, the private
data, the error stored through `err` and the calls made. -/
structure StartResult where
  ret : Bool
  priv : NMPPPManagerPrivate
  err : Option GError
  calls : List Call
deriving DecidableEq, Repr

/-- `nm_ppp_manager_start`, for a manager, device and setting that pass the
`g_return_val_if_fail` checks.  `nm_cmd_line_to_str` only feeds the debug log. -/
def nm_ppp_manager_start (env : Env) (priv : NMPPPManagerPrivate) (device : String)
    (setting : NMSettingPPP) : StartResult :=
  match create_pppd_cmd_line env.g_file_test env.LIBDIR setting device with
  | .error e => ⟨false, priv, some e, []⟩
  | .ok ppp_cmd =>
    let ppp_cmd := nm_cmd_line_add_string ppp_cmd "defaultroute"
    let priv := { priv with pid := 0 }
    match env.g_spawn_async ppp_cmd.array with
    | .error e =>
      ⟨decide (priv.pid > 0), priv, some e, [.g_spawn_async ppp_cmd.array]⟩
    | .ok child_pid =>
      let priv := { priv with pid := child_pid }
      let watcher := start_dbus_watcher env priv
      ⟨decide (watcher.1.pid > 0), watcher.1, none,
        [.g_spawn_async ppp_cmd.array, .g_child_watch_source_new env.pid_local] ++ watcher.2⟩

/-- `nm_ppp_manager_stop`: the private data afterwards and the calls made. -/
def nm_ppp_manager_stop (priv : NMPPPManagerPrivate) : NMPPPManagerPrivate × List Call :=
  let st : NMPPPManagerPrivate × List Call := (priv, [])
  let st := if st.1.ppp_timeout_handler ≠ 0 then
      ({ st.1 with ppp_timeout_handler := 0 },
       st.2 ++ [.g_source_remove st.1.ppp_timeout_handler])
    else st
  let st := if st.1.signal_handler ≠ 0 then
      ({ st.1 with signal_handler := 0 },
       st.2 ++ [.nm_dbus_manager_remove_signal_handler st.1.dbus_manager st.1.signal_handler])
    else st
  let st : NMPPPManagerPrivate × List Call := match st.1.dbus_manager with
    | some mgr =>
      ({ st.1 with dbus_manager := none },
       st.2 ++ [.g_signal_handler_disconnect mgr st.1.name_owner_changed_handler,
                .g_object_unref mgr])
    | none => st
  let st := if st.1.pid ≠ 0 then
      ({ st.1 with pid := 0 }, st.2 ++ [.kill st.1.pid SIGTERM])
    else st
  st

/-- Whether a call sends a signal to a process. -/
def Call.is_kill : Call → Bool
  | .kill _ _ => true
  | _ => false

/-! ## Exit codes -/

/-- `ppp_exit_code`: the message that is logged for an exit status. -/
def ppp_exit_code (pppd_exit_status : Nat) : String :=
  match pppd_exit_status with
  | 1 => "Fatal pppd error"
  | 2 => "pppd options error"
  | 3 => "No root priv error"
  | 4 => "No ppp module error"
  | 5 => "pppd received a signal"
  | 6 => "Serial port lock failed"
  | 7 => "Serial port open failed"
  | 8 => "Connect script failed"
  | 9 => "Pty program error"
  | 10 => "PPP negotiation failed"
  | 11 => "Peer didn't authenticatie itself"
  | 12 => "Link idle: Idle Seconds reached."
  | 13 => "Connect time limit reached."
  | 14 => "Callback negotiated, call should come back."
  | 15 => "Lack of LCP echo responses"
  | 16 => "A modem hung up the phone"
  | 17 => "Loopback detected"
  | 18 => "The init script failed"
  | 19 => "Authentication error.\nWe failed to authenticate ourselves to the peer.\nMaybe bad account or password?"
  | _ => "Unknown error"

/-! ## The IP4Config signal -/

/-- `DBUS_TYPE_STRING`, the character `s`. -/
def DBUS_TYPE_STRING : Nat := 115

/-- `DBUS_TYPE_UINT32`, the character `u`. -/
def DBUS_TYPE_UINT32 : Nat := 117

/-- `DBUS_TYPE_ARRAY`, the character `a`. -/
def DBUS_TYPE_ARRAY : Nat := 97

/-- `NMUDictEntry` (dbus-dict-helpers.h): the key, the type of the value, the
element type of an array value, and the members of the value union that
`parse_ip4_config` reads.  `array_len` is the length of `uint32array_value`. -/
structure NMUDictEntry where
  key : String
  type : Nat
  array_type : Nat
  str_value : String
  uint32_value : Nat
  uint32array_value : List Nat
deriving DecidableEq, Repr

/-- Modelled from the spec: `NMIP4Config` (nm-ip4-config.h is not among the
sources) holds address, netmask, gateway and the nameservers in the order in
which they were added. -/
structure NMIP4Config where
  address : Nat
  netmask : Nat
  gateway : Nat
  nameservers : List Nat
deriving DecidableEq, Repr

/-- Modelled from the spec: `nm_ip4_config_set_address` stores the address. -/
def nm_ip4_config_set_address (config : NMIP4Config) (addr : Nat) : NMIP4Config :=
  { config with address := addr }

/-- Modelled from the spec: `nm_ip4_config_set_netmask` stores the netmask. -/
def nm_ip4_config_set_netmask (config : NMIP4Config) (netmask : Nat) : NMIP4Config :=
  { config with netmask := netmask }

/-- Modelled from the spec: `nm_ip4_config_set_gateway` stores the gateway. -/
def nm_ip4_config_set_gateway (config : NMIP4Config) (gateway : Nat) : NMIP4Config :=
  { config with gateway := gateway }

/-- Modelled from the spec: `nm_ip4_config_add_nameserver` adds a nameserver
after those already held. -/
def nm_ip4_config_add_nameserver (config : NMIP4Config) (nameserver : Nat) : NMIP4Config :=
  { config with nameservers := config.nameservers ++ [nameserver] }

/-- A D-Bus message as the manager reads it: whether it is a signal, its
interface and member, the result of reading one `uint32` argument, and the
dictionary argument.  `dict = none` when `nmu_dbus_dict_open_read` fails; an
entry is `none` when `nmu_dbus_dict_get_entry` fails on it. -/
structure DBusMessage where
  is_signal : Bool
  interface : String
  member : String
  uint32_arg : Option Nat
  dict : Option (List (Option NMUDictEntry))
deriving DecidableEq, Repr

/-- What the loop of `parse_ip4_config` updates: `*interface` and `*config`. -/
structure ParseState where
  interface : Option String
  config : NMIP4Config
deriving DecidableEq, Repr

/-- The macro `HANDLE_DICT_ITEM`: `none` when the key is not `in_key` (control
falls through to the next item), otherwise the state at `goto next`. -/
def HANDLE_DICT_ITEM (entry : NMUDictEntry) (in_key : String) (in_type in_ary_type : Nat)
    (op : ParseState → ParseState) (st : ParseState) : Option ParseState :=
  if entry.key = in_key then
    if entry.type ≠ in_type then some st
    else if in_type = DBUS_TYPE_ARRAY ∧ entry.array_type ≠ in_ary_type then some st
    else some (op st)
  else none

/-- The body of the `while` loop of `parse_ip4_config` for one entry that
was read. -/
def parse_ip4_config_entry (entry : NMUDictEntry) (st : ParseState) : ParseState :=
  (HANDLE_DICT_ITEM entry "interface" DBUS_TYPE_STRING 0
      (fun st => if entry.str_value.length ≠ 0 then
          { st with interface := some entry.str_value } else st) st).getD <|
  (HANDLE_DICT_ITEM entry "address" DBUS_TYPE_UINT32 0
      (fun st => { st with config := nm_ip4_config_set_address st.config entry.uint32_value })
      st).getD <|
  (HANDLE_DICT_ITEM entry "netmask" DBUS_TYPE_UINT32 0
      (fun st => { st with config := (nm_ip4_config_set_netmask st.config
          (if entry.uint32_value ≠ 0 then entry.uint32_value else 0x00FF)) }) st).getD <|
  (HANDLE_DICT_ITEM entry "gateway" DBUS_TYPE_UINT32 0
      (fun st => { st with config := nm_ip4_config_set_gateway st.config entry.uint32_value })
      st).getD <|
  (HANDLE_DICT_ITEM entry "dns_server" DBUS_TYPE_ARRAY DBUS_TYPE_UINT32
      (fun st => { st with config :=
          entry.uint32array_value.foldl nm_ip4_config_add_nameserver st.config }) st).getD <|
  st

/-- The `while` loop of `parse_ip4_config`: `none` when an entry cannot be
read (`goto out` with `success == FALSE`). -/
def parse_ip4_config_loop : List (Option NMUDictEntry) → ParseState → Option ParseState
  | [], st => some st
  | none :: _, _ => none
  | some entry :: rest, st => parse_ip4_config_loop rest (parse_ip4_config_entry entry st)

/-- `parse_ip4_config`: the return value and `*interface`, `*config`
afterwards.  `new_config` is what `nm_ip4_config_new ()` returns. -/
def parse_ip4_config (new_config : NMIP4Config) (message : DBusMessage)
    (interface : Option String) (config : Option NMIP4Config) :
    Bool × Option String × Option NMIP4Config :=
  match message.dict with
  | none => if config.isSome then (false, none, none) else (false, interface, config)
  | some entries =>
    match parse_ip4_config_loop entries ⟨interface, new_config⟩ with
    | none => (false, none, none)
    | some st => (true, st.interface, some st.config)

/-- The signals of `NMPPPManager` with their arguments. -/
inductive Emission where
  | STATE_CHANGED (state : Nat)
  | IP4_CONFIG (iface : Option String) (config : Option NMIP4Config)
deriving DecidableEq, Repr

/-- `dbus_message_is_signal`. -/
def dbus_message_is_signal (message : DBusMessage) (iface signal_name : String) : Bool :=
  message.is_signal && message.interface == iface && message.member == signal_name

/-- `nm_ppp_manager_dbus_signal_handler`: whether the message was handled and
what was emitted.  `NM_DBUS_INTERFACE_PPP` comes from a header that is not
among the sources. -/
def nm_ppp_manager_dbus_signal_handler (NM_DBUS_INTERFACE_PPP : String)
    (new_config : NMIP4Config) (message : DBusMessage) : Bool × List Emission :=
  if dbus_message_is_signal message NM_DBUS_INTERFACE_PPP "Status" then
    match message.uint32_arg with
    | some state => (true, [.STATE_CHANGED state])
    | none => (false, [])
  else if dbus_message_is_signal message NM_DBUS_INTERFACE_PPP "IP4Config" then
    let iface : Option String := none
    let config : Option NMIP4Config := none
    let parsed := parse_ip4_config new_config message iface config
    if parsed.1 then (true, [.IP4_CONFIG parsed.2.1 parsed.2.2]) else (false, [])
  else (false, [])

/-! ## Inputs and predicates used in the statements -/

/-- A setting with every option false or zero. -/
def setting_none : NMSettingPPP :=
  ⟨0, false, false, false, false, false, false, false, false, false, false, false, 0, 0, 0, 0⟩

/-- The options `noauth: true, mru: 1400, lcp_echo_interval: 5,
lcp_echo_failure: 3`, every other option false or zero. -/
def setting_example : NMSettingPPP :=
  { setting_none with noauth := true, mru := 1400, lcp_echo_interval := 5, lcp_echo_failure := 3 }

/-- The setting in which noauth is the only option set. -/
def setting_noauth : NMSettingPPP := { setting_none with noauth := true }

/-- A file system in which only /usr/sbin/pppd exists. -/
def only_usr_sbin (path : String) : Bool := path == "/usr/sbin/pppd"

/-- The arguments that the options of a setting contribute, in the order in
which `create_pppd_cmd_line` adds them. -/
def option_args (setting : NMSettingPPP) : List String :=
  (if setting.baud ≠ 0 then [toString setting.baud] else []) ++
  (if setting.noauth then ["noauth"] else []) ++
  (if setting.noauth then ["refuse-eap"] else []) ++
  (if setting.refuse_eap then ["refuse-chap"] else []) ++
  (if setting.refuse_chap then ["refuse-mschap"] else []) ++
  (if setting.refuse_mschap then ["nobsdcomp"] else []) ++
  (if setting.nobsdcomp then ["nodeflate"] else []) ++
  (if setting.nodeflate then ["require-mppe"] else []) ++
  (if setting.require_mppe then ["require-mppe-128"] else []) ++
  (if setting.require_mppe_128 then ["mppe-stateful"] else []) ++
  (if setting.mppe_stateful then ["require-mppc"] else []) ++
  (if setting.crtscts then ["crtscts"] else []) ++
  (if setting.usepeerdns then ["usepeerdns"] else []) ++
  (if setting.mru ≠ 0 then ["mru", toString setting.mru] else []) ++
  (if setting.mtu ≠ 0 then ["mtu", toString setting.mtu] else []) ++
  (if setting.lcp_echo_failure ≠ 0 then
    ["lcp-echo-failure", toString setting.lcp_echo_failure] else []) ++
  (if setting.lcp_echo_interval ≠ 0 then
    ["lcp-echo-interval", toString setting.lcp_echo_interval] else [])

/-- The token `t` stands at position `i` of the argument list. -/
def token_at (l : List String) (i : Nat) (t : String) : Prop := l[i]? = some t

/-- The flag and its value stand at positions `i` and `i + 1`. -/
def pair_at (l : List String) (i : Nat) (flag value : String) : Prop :=
  l[i]? = some flag ∧ l[i + 1]? = some value

/-- The list holds the token `t`, then the pair `p`, then the pair `q`, then
the pair `r`, in this order and without overlap. -/
def in_order (l : List String) (t : String) (p q r : String × String) : Prop :=
  ∃ i j k m, i < j ∧ j + 1 < k ∧ k + 1 < m ∧
    token_at l i t ∧ pair_at l j p.1 p.2 ∧ pair_at l k q.1 q.2 ∧ pair_at l m r.1 r.2

/-- A file system with /usr/sbin/pppd, a spawner that succeeds with pid 4242. -/
def env_spawn_ok : Env :=
  ⟨only_usr_sbin, "/usr/lib", fun _ => .ok 4242, 77, 5, ⟨1⟩, 9⟩

/-- The entries of the dictionary of a message that could be read. -/
def dict_entries (message : DBusMessage) : List NMUDictEntry :=
  (message.dict.getD []).filterMap id

/-- A netmask entry of the type that `parse_ip4_config` accepts. -/
def is_netmask_entry (entry : NMUDictEntry) : Bool :=
  entry.key == "netmask" && entry.type == DBUS_TYPE_UINT32

/-- The value of the last well-typed netmask entry, if there is one. -/
def supplied_netmask (entries : List NMUDictEntry) : Option Nat :=
  ((entries.filter is_netmask_entry).map (fun entry => entry.uint32_value)).getLast?

/-- A dns_server entry of the type and element type that `parse_ip4_config`
accepts. -/
def is_dns_server_entry (entry : NMUDictEntry) : Bool :=
  entry.key == "dns_server" && entry.type == DBUS_TYPE_ARRAY &&
    entry.array_type == DBUS_TYPE_UINT32

/-- The elements of all well-typed dns_server entries, in dictionary order
and element order. -/
def supplied_nameservers (entries : List NMUDictEntry) : List Nat :=
  ((entries.filter is_dns_server_entry).map (fun entry => entry.uint32array_value)).flatten

/-- An interface entry of the type that `parse_ip4_config` accepts, with a
name that is not empty. -/
def is_interface_entry (entry : NMUDictEntry) : Bool :=
  entry.key == "interface" && entry.type == DBUS_TYPE_STRING && entry.str_value.length != 0

/-- The name of the last well-typed, non-empty interface entry, if there is
one. -/
def reported_interface (entries : List NMUDictEntry) : Option String :=
  ((entries.filter is_interface_entry).map (fun entry => entry.str_value)).getLast?

/-- A new configuration as GObject creates it: all fields zero, no
nameserver. -/
def config_zero : NMIP4Config := ⟨0, 0, 0, []⟩

/-- Shorthand for an entry with a `uint32` value. -/
def uint32_entry (key : String) (value : Nat) : NMUDictEntry :=
  ⟨key, DBUS_TYPE_UINT32, 0, "", value, []⟩

/-- An IP4Config signal without netmask and interface entries. -/
def message_no_netmask : DBusMessage :=
  ⟨true, "org.freedesktop.NetworkManager.PPP", "IP4Config", none,
    some [some (uint32_entry "address" 0x0100007F), some (uint32_entry "gateway" 0x0200007F)]⟩

/-- The IP4Config signal address=0x0100007F, netmask=0, gateway=0x0200007F,
dns_server=[0x08080808, 0x04040404]. -/
def message_example : DBusMessage :=
  ⟨true, "org.freedesktop.NetworkManager.PPP", "IP4Config", none,
    some [some (uint32_entry "address" 0x0100007F), some (uint32_entry "netmask" 0),
      some (uint32_entry "gateway" 0x0200007F),
      some ⟨"dns_server", DBUS_TYPE_ARRAY, DBUS_TYPE_UINT32, "", 0, [0x08080808, 0x04040404]⟩]⟩

/-- An IP4Config signal that names the interface ppp0. -/
def message_ppp0 : DBusMessage :=
  ⟨true, "org.freedesktop.NetworkManager.PPP", "IP4Config", none,
    some [some ⟨"interface", DBUS_TYPE_STRING, 0, "ppp0", 0, []⟩,
      some (uint32_entry "address" 0x0100007F)]⟩

/-! ## The watchdog and the bus name of the helper -/

/-- What `pppd_timed_out` leaves behind: its return value (FALSE removes the
timeout source), the private data, the calls made, the warnings logged and
the signals of the manager that were emitted. -/
structure TimedOutResult where
  ret : Bool
  priv : NMPPPManagerPrivate
  calls : List Call
  warnings : List String
  emitted : List Emission
deriving DecidableEq, Repr

/-- `pppd_timed_out`: a warning, `nm_ppp_manager_stop`, and FALSE.  Neither
function calls `g_signal_emit`. -/
def pppd_timed_out (priv : NMPPPManagerPrivate) : TimedOutResult :=
  let stopped := nm_ppp_manager_stop priv
  ⟨false, stopped.1, stopped.2, ["Looks like pppd didn't initialize our dbus module"], []⟩

/-- The test `owner && (strlen (owner) > 0)` of `name_owner_changed`. -/
def owner_good (owner : Option String) : Bool :=
  match owner with
  | some s => decide (s.length > 0)
  | none => false

/-- `name_owner_changed`: the private data afterwards and the calls made.
`NM_DBUS_SERVICE_PPP` and `NM_DBUS_INTERFACE_PPP` come from a header that is
not among the sources; `registered` is what
`nm_dbus_manager_register_signal_handler` returns. -/
def name_owner_changed (NM_DBUS_SERVICE_PPP NM_DBUS_INTERFACE_PPP : String) (registered : Nat)
    (priv : NMPPPManagerPrivate) (name : String) (old new : Option String) :
    NMPPPManagerPrivate × List Call :=
  let old_owner_good := owner_good old
  let new_owner_good := owner_good new
  if name ≠ NM_DBUS_SERVICE_PPP then (priv, [])
  else if !old_owner_good && new_owner_good then
    let st : NMPPPManagerPrivate × List Call :=
      if priv.ppp_timeout_handler ≠ 0 then
        ({ priv with ppp_timeout_handler := 0 }, [.g_source_remove priv.ppp_timeout_handler])
      else (priv, [])
    ({ st.1 with signal_handler := registered },
     st.2 ++ [.nm_dbus_manager_register_signal_handler st.1.dbus_manager
                NM_DBUS_INTERFACE_PPP NM_DBUS_SERVICE_PPP])
  else if old_owner_good && !new_owner_good then nm_ppp_manager_stop priv
  else (priv, [])

/-! ## libnm: NMRemoteConnection (libnm/nm-remote-connection.c) -/

/-- A `GVariant`, kept as its printed form. -/
structure GVariant where
  text : String
deriving DecidableEq, Repr

/-- One setting of an `NMConnection`. -/
structure NMSetting where
  name : String
deriving DecidableEq, Repr

/-- What the functions below read and write of an `NMRemoteConnection`: the
path of its `NMConnection` part (set by `constructed`), `priv->visible`, and
the settings of its `NMConnection` part. -/
structure NMRemoteConnection where
  path : Option String
  visible : Bool
  settings : List NMSetting
deriving DecidableEq, Repr

/-- The object after `constructed`: GObject zero-fills the private data, so
`visible` is FALSE, and `nm_remote_connection_init` is empty.  Modelled from
the spec: a connection that was given no settings holds none (the store is in
nm-connection.c, which is not among the sources). -/
def constructed (path : Option String) : NMRemoteConnection := ⟨path, false, []⟩

/-- Modelled from the spec: `nm_connection_clear_settings` (nm-connection.c is
not among the sources) leaves a connection without settings. -/
def nm_connection_clear_settings (self : NMRemoteConnection) : NMRemoteConnection :=
  { self with settings := [] }

/-- `nm_remote_connection_get_visible`. -/
def nm_remote_connection_get_visible (connection : NMRemoteConnection) : Bool :=
  connection.visible

/-- `replace_settings`: the settings after `_nm_connection_replace_settings`
with best-effort parsing, whether it reports an error or not.  The function
`_nm_connection_replace_settings` (nm-connection.c) is a parameter: the
settings it leaves, given those held and the new ones. -/
def replace_settings (_nm_connection_replace_settings : List NMSetting → GVariant → List NMSetting)
    (self : NMRemoteConnection) (new_settings : GVariant) : NMRemoteConnection :=
  { self with settings := _nm_connection_replace_settings self.settings new_settings }

/-- `updated_get_settings_cb`: the object afterwards and whether
`g_object_notify` was called for the property visible.  `reply` is the
settings GetSettings returned, `none` when the call failed. -/
def updated_get_settings_cb
    (_nm_connection_replace_settings : List NMSetting → GVariant → List NMSetting)
    (self : NMRemoteConnection) (reply : Option GVariant) : NMRemoteConnection × Bool :=
  let st : NMRemoteConnection × Bool :=
    match reply with
    | none => (nm_connection_clear_settings self, false)
    | some new_settings => (replace_settings _nm_connection_replace_settings self new_settings, true)
  let self := st.1
  let visible := st.2
  if visible ≠ self.visible then ({ self with visible := visible }, true) else (self, false)

/-- `init_sync`: the object afterwards and the return value, which is that of
the parent's `init`. -/
def init_sync (_nm_connection_replace_settings : List NMSetting → GVariant → List NMSetting)
    (self : NMRemoteConnection) (reply : Option GVariant) (parent_init : Bool) :
    NMRemoteConnection × Bool :=
  let self :=
    match reply with
    | some settings =>
      replace_settings _nm_connection_replace_settings { self with visible := true } settings
    | none => self
  if !parent_init then (self, false) else (self, true)

/-- `init_get_settings_cb`: the object when the parent's `init_async` is
started. -/
def init_get_settings_cb
    (_nm_connection_replace_settings : List NMSetting → GVariant → List NMSetting)
    (self : NMRemoteConnection) (reply : Option GVariant) : NMRemoteConnection :=
  match reply with
  | none => self
  | some settings =>
    replace_settings _nm_connection_replace_settings { self with visible := true } settings

/-! ## libnm: NMRemoteSettings (libnm/nm-remote-settings.c) -/

/-- A `GTask`: the object, and the object that `g_task_get_cancellable`
returns (`none` for NULL). -/
structure GTask where
  id : Nat
  cancellable : Option Nat
deriving DecidableEq, Repr

/-- `AddConnectionInfo`, without the list link and the back pointer `self`.
Two entries of a list are the same entry when they are equal: every entry
owns its task. -/
structure AddConnectionInfo where
  task : GTask
  connection_path : String
  extra_results : Option GVariant
  cancellable_id : Nat
deriving DecidableEq, Repr

/-- What a task was completed with: `g_task_return_error`, or
`g_task_return_pointer` with an `NMAddConnectionResultData`. -/
inductive TaskResult where
  | error (error : GError)
  | pointer (connection : Option Nat) (extra_results : Option GVariant)
deriving DecidableEq, Repr

/-- The completion of a task. -/
structure TaskReturn where
  task : GTask
  result : TaskResult
deriving DecidableEq, Repr

/-- `NMRemoteSettingsPrivate`: the two arrays of connection objects (an object
is named by its address) and the list of pending entries, oldest first.  The
proxy, the hostname and `can_modify` are left out. -/
structure NMRemoteSettingsPrivate where
  all_connections : List Nat
  visible_connections : List Nat
  add_lst_head : List AddConnectionInfo
deriving DecidableEq, Repr

/-- The settings object together with the connection objects it refers to:
the private data, the object at every address, and the connections on which
`connection_visible_changed` is connected for this settings object. -/
structure RemoteSettings where
  priv : NMRemoteSettingsPrivate
  objects : Nat → NMRemoteConnection
  visible_changed_handlers : List Nat

/-- The signals of `NMRemoteSettings` as its subscribers receive them. -/
inductive RemoteSettingsSignal where
  | CONNECTION_ADDED (connection : Nat)
  | CONNECTION_REMOVED (connection : Nat)
deriving DecidableEq, Repr

/-- `_add_connection_info_find`: the first entry for the path. -/
def _add_connection_info_find (priv : NMRemoteSettingsPrivate) (connection_path : String) :
    Option AddConnectionInfo :=
  priv.add_lst_head.find? (fun info => info.connection_path == connection_path)

/-- `_add_connection_info_complete`: the entry leaves the list and its task
is completed, with the error if there is one, with the connection and the
extra results otherwise. -/
def _add_connection_info_complete (priv : NMRemoteSettingsPrivate) (info : AddConnectionInfo)
    (connection : Option Nat) (error_take : Option GError) :
    NMRemoteSettingsPrivate × TaskReturn :=
  ({ priv with add_lst_head := priv.add_lst_head.erase info },
   ⟨info.task,
    match error_take with
    | some error => .error error
    | none => .pointer connection info.extra_results⟩)

/-- The error of `_wait_for_connection_cancelled_cb`. -/
def G_IO_ERROR_CANCELLED : GError :=
  ⟨"g-io-error-quark", "G_IO_ERROR_CANCELLED", "Operation was cancelled"⟩

/-- The error of `object_creation_failed`. -/
def NM_CLIENT_ERROR_OBJECT_CREATION_FAILED : GError :=
  ⟨"nm-client-error-quark", "NM_CLIENT_ERROR_OBJECT_CREATION_FAILED",
    "Connection removed before it was initialized"⟩

/-- `_wait_for_connection_cancelled_cb`. -/
def _wait_for_connection_cancelled_cb (priv : NMRemoteSettingsPrivate)
    (info : AddConnectionInfo) : NMRemoteSettingsPrivate × TaskReturn :=
  _add_connection_info_complete priv info none (some G_IO_ERROR_CANCELLED)

/-- What a class handler leaves: the settings, whether it stopped the
emission, and the tasks it completed. -/
structure HandlerResult where
  settings : RemoteSettings
  stopped : Bool
  returned : List TaskReturn

/-- `connection_removed`, the class handler of connection-removed. -/
def connection_removed (self : RemoteSettings) (remote : Nat) : HandlerResult :=
  let still_exists := decide (remote ∈ self.priv.all_connections)
  let self :=
    if !still_exists then
      { self with visible_changed_handlers :=
          self.visible_changed_handlers.filter (fun c => c != remote) }
    else self
  if remote ∈ self.priv.visible_connections then
    ⟨{ self with priv := { self.priv with
        visible_connections := self.priv.visible_connections.erase remote } }, false, []⟩
  else ⟨self, true, []⟩

/-- `connection_added`, the class handler of connection-added. -/
def connection_added (self : RemoteSettings) (remote : Nat) : HandlerResult :=
  let self :=
    if remote ∈ self.visible_changed_handlers then self
    else { self with visible_changed_handlers := self.visible_changed_handlers ++ [remote] }
  let st : RemoteSettings × Bool :=
    if nm_remote_connection_get_visible (self.objects remote) then
      ({ self with priv := { self.priv with
          visible_connections := self.priv.visible_connections ++ [remote] } }, false)
    else (self, true)
  let self := st.1
  let path := (self.objects remote).path
  let info := path.bind (_add_connection_info_find self.priv)
  match info with
  | some info =>
    let done := _add_connection_info_complete self.priv info (some remote) none
    ⟨{ self with priv := done.1 }, st.2, [done.2]⟩
  | none => ⟨self, st.2, []⟩

/-- What an event leaves: the settings, the signals delivered to the
subscribers, and the tasks completed. -/
structure EventResult where
  settings : RemoteSettings
  delivered : List RemoteSettingsSignal
  returned : List TaskReturn

/-- `g_signal_emit` for the two signals of `NMRemoteSettings`, which are
`G_SIGNAL_RUN_FIRST`: the class handler runs first, and the subscribers
receive the signal unless the class handler stopped the emission. -/
def g_signal_emit (self : RemoteSettings) (signal : RemoteSettingsSignal) : EventResult :=
  match signal with
  | .CONNECTION_ADDED connection =>
    let r := connection_added self connection
    ⟨r.settings, if r.stopped then [] else [signal], r.returned⟩
  | .CONNECTION_REMOVED connection =>
    let r := connection_removed self connection
    ⟨r.settings, if r.stopped then [] else [signal], r.returned⟩

/-- `connection_visible_changed`. -/
def connection_visible_changed (self : RemoteSettings) (object : Nat) : EventResult :=
  if nm_remote_connection_get_visible (self.objects object) then
    g_signal_emit self (.CONNECTION_ADDED object)
  else
    g_signal_emit self (.CONNECTION_REMOVED object)

/-- A GetSettings reply reaches the connection at address `connection`:
`updated_get_settings_cb` runs on the object, and its `g_object_notify` runs
`connection_visible_changed` if that handler is connected on the object. -/
def settings_updated
    (_nm_connection_replace_settings : List NMSetting → GVariant → List NMSetting)
    (self : RemoteSettings) (connection : Nat) (reply : Option GVariant) : EventResult :=
  let r := updated_get_settings_cb _nm_connection_replace_settings (self.objects connection) reply
  let self := { self with objects := Function.update self.objects connection r.1 }
  if r.2 ∧ connection ∈ self.visible_changed_handlers then
    connection_visible_changed self connection
  else ⟨self, [], []⟩

/-- `object_creation_failed`. -/
def object_creation_failed (priv : NMRemoteSettingsPrivate) (failed_path : String) :
    NMRemoteSettingsPrivate × List TaskReturn :=
  match _add_connection_info_find priv failed_path with
  | none => (priv, [])
  | some info =>
    let done := _add_connection_info_complete priv info none
      (some NM_CLIENT_ERROR_OBJECT_CREATION_FAILED)
    (done.1, [done.2])

/-- `nm_remote_settings_wait_for_connection`.  `g_cancellable_connect` is
what the GLib function of that name returns: 0 when the cancellable was
cancelled already, in which case it has run the callback before it returns. -/
def nm_remote_settings_wait_for_connection (priv : NMRemoteSettingsPrivate)
    (connection_path : String) (extra_results_take : Option GVariant) (task_take : GTask)
    (g_cancellable_connect : Nat) : NMRemoteSettingsPrivate × List TaskReturn :=
  let info : AddConnectionInfo := ⟨task_take, connection_path, extra_results_take, 0⟩
  let priv := { priv with add_lst_head := priv.add_lst_head ++ [info] }
  match info.task.cancellable with
  | some _ =>
    let id := g_cancellable_connect
    if id = 0 then
      let done := _wait_for_connection_cancelled_cb priv info
      (done.1, [done.2])
    else
      ({ priv with add_lst_head :=
          priv.add_lst_head.dropLast ++ [{ info with cancellable_id := id }] }, [])
  | none => (priv, [])

/-- The path used in the examples. -/
def path_1 : String := "/org/freedesktop/NetworkManager/Settings/1"

/-- The parameter `_nm_connection_replace_settings` of the examples: one
setting named after the text of the new settings. -/
def replace_example (_ : List NMSetting) (new_settings : GVariant) : List NMSetting :=
  [⟨new_settings.text⟩]

/-- A connection is known to the settings object: it is in `all_connections`,
it was passed to `connection_added` (which connects
`connection_visible_changed` on it), and it is in `visible_connections` once
if it is visible and not at all if it is not. -/
def known (self : RemoteSettings) (remote : Nat) : Prop :=
  remote ∈ self.priv.all_connections ∧
  remote ∈ self.visible_changed_handlers ∧
  self.priv.visible_connections.count remote = if (self.objects remote).visible then 1 else 0

/-- A settings object that knows one connection, at address 1 and with the
path `path_1`, which is not visible. -/
def settings_one_invisible : RemoteSettings :=
  ⟨⟨[1], [], []⟩, fun _ => ⟨some path_1, false, []⟩, [1]⟩

/-- The connection after a sequence of replies to GetSettings, each handled
by `updated_get_settings_cb`. -/
def updated_replies (_nm_connection_replace_settings : List NMSetting → GVariant → List NMSetting)
    (self : NMRemoteConnection) (replies : List (Option GVariant)) : NMRemoteConnection :=
  replies.foldl
    (fun connection reply =>
      (updated_get_settings_cb _nm_connection_replace_settings connection reply).1) self

/-! ## The activation request (src/nm-activation-request.h) -/

/-- `NMActStage`, in the order of the header. -/
inductive NMActStage where
  | ACT_STAGE_UNKNOWN
  | ACT_STAGE_DEVICE_PREPARE
  | ACT_STAGE_DEVICE_CONFIG
  | ACT_STAGE_NEED_USER_KEY
  | ACT_STAGE_IP_CONFIG_START
  | ACT_STAGE_IP_CONFIG_GET
  | ACT_STAGE_IP_CONFIG_COMMIT
  | ACT_STAGE_ACTIVATED
  | ACT_STAGE_FAILED
  | ACT_STAGE_CANCELLED
deriving DecidableEq, Repr

/-- The value of an enumerator: `ACT_STAGE_UNKNOWN = 0`, each of the others
one more than the one before it. -/
def NMActStage.value : NMActStage → Nat
  | .ACT_STAGE_UNKNOWN => 0
  | .ACT_STAGE_DEVICE_PREPARE => 1
  | .ACT_STAGE_DEVICE_CONFIG => 2
  | .ACT_STAGE_NEED_USER_KEY => 3
  | .ACT_STAGE_IP_CONFIG_START => 4
  | .ACT_STAGE_IP_CONFIG_GET => 5
  | .ACT_STAGE_IP_CONFIG_COMMIT => 6
  | .ACT_STAGE_ACTIVATED => 7
  | .ACT_STAGE_FAILED => 8
  | .ACT_STAGE_CANCELLED => 9

/-- The two terminal stages. -/
def NMActStage.terminal (stage : NMActStage) : Bool :=
  stage == .ACT_STAGE_FAILED || stage == .ACT_STAGE_CANCELLED

/-- Modelled from the spec: `NMActRequest` (its declaration and the bodies of
its functions are not among the sources; the header only declares them).  Of
the attributes of the spec the stage cursor is kept. -/
structure NMActRequest where
  stage : NMActStage
deriving DecidableEq, Repr

/-- Modelled from the spec: `nm_act_request_get_stage`, whose body is not
among the sources, returns the current stage. -/
def nm_act_request_get_stage (req : NMActRequest) : NMActStage := req.stage

/-- Modelled from the spec: `nm_act_request_set_stage`, whose body is not
among the sources.  A request in a terminal stage stays there; FAILED and
CANCELLED are reachable from every other stage; a stage that is not earlier
than the current one is entered; an out-of-order transition is converted to
FAILED. -/
def nm_act_request_set_stage (req : NMActRequest) (stage : NMActStage) : NMActRequest :=
  if req.stage.terminal then req
  else if stage.terminal then { req with stage := stage }
  else if req.stage.value ≤ stage.value then { req with stage := stage }
  else { req with stage := .ACT_STAGE_FAILED }

/-- The stages observed through `nm_act_request_get_stage`: before the first
call of `nm_act_request_set_stage` and after each call. -/
def observed_stages (req : NMActRequest) : List NMActStage → List NMActStage
  | [] => [nm_act_request_get_stage req]
  | stage :: rest =>
    nm_act_request_get_stage req :: observed_stages (nm_act_request_set_stage req stage) rest

/-- The later stage `b` is no regression from the earlier stage `a`: it is
FAILED or CANCELLED, or neither stage is terminal and `b` is not before `a`
in the order of `NMActStage`. -/
def no_regression (a b : NMActStage) : Prop :=
  b = .ACT_STAGE_FAILED ∨ b = .ACT_STAGE_CANCELLED ∨
    (a.terminal = false ∧ b.terminal = false ∧ a.value ≤ b.value)

/-! ## Further predicates on the entries of the IP4Config dictionary -/

/-- An address entry of the type that `parse_ip4_config` accepts. -/
def is_address_entry (entry : NMUDictEntry) : Bool :=
  entry.key == "address" && entry.type == DBUS_TYPE_UINT32

/-- The value of the last well-typed address entry, if there is one. -/
def supplied_address (entries : List NMUDictEntry) : Option Nat :=
  ((entries.filter is_address_entry).map (fun entry => entry.uint32_value)).getLast?

/-- A gateway entry of the type that `parse_ip4_config` accepts. -/
def is_gateway_entry (entry : NMUDictEntry) : Bool :=
  entry.key == "gateway" && entry.type == DBUS_TYPE_UINT32

/-- The value of the last well-typed gateway entry, if there is one. -/
def supplied_gateway (entries : List NMUDictEntry) : Option Nat :=
  ((entries.filter is_gateway_entry).map (fun entry => entry.uint32_value)).getLast?

/-- An interface entry of the value type of the key, whatever its value. -/
def is_string_interface_entry (entry : NMUDictEntry) : Bool :=
  entry.key == "interface" && entry.type == DBUS_TYPE_STRING

/-- An entry with one of the five known keys and the value type, and for an
array the element type, that `HANDLE_DICT_ITEM` asks for. -/
def is_well_typed_entry (entry : NMUDictEntry) : Bool :=
  is_string_interface_entry entry || is_address_entry entry || is_netmask_entry entry ||
    is_gateway_entry entry || is_dns_server_entry entry

/-- The value of the last well-typed interface entry, empty or not, if there
is one. -/
def last_interface_value (entries : List NMUDictEntry) : Option String :=
  ((entries.filter is_string_interface_entry).map (fun entry => entry.str_value)).getLast?

/-- An IP4Config signal with two well-typed interface entries, the second
with an empty name, and two well-typed netmask entries, the second 0. -/
def message_repeated_keys : DBusMessage :=
  ⟨true, "org.freedesktop.NetworkManager.PPP", "IP4Config", none,
    some [some ⟨"interface", DBUS_TYPE_STRING, 0, "ppp0", 0, []⟩,
      some (uint32_entry "netmask" 0x00FFFFFF),
      some ⟨"interface", DBUS_TYPE_STRING, 0, "", 0, []⟩,
      some (uint32_entry "netmask" 0)]⟩

/-! ## libnm: NMClient, requests and reply handlers (libnm/nm-client.c) -/

/-- The source tag of a task of `NMClient`: the function that started the
operation. -/
inductive SourceTag where
  | nm_client_check_connectivity_async
  | nm_client_save_hostname_async
  | nm_client_activate_connection_async
  | nm_client_add_and_activate_connection_async
  | nm_client_add_and_activate_connection2
  | nm_client_add_connection_async
  | nm_client_add_connection2
  | nm_client_load_connections_async
  | nm_client_checkpoint_create
deriving DecidableEq, Repr

/-- A `GVariant` of type `a{sv}`: keys and values in order. -/
abbrev VardictVariant := List (String × String)

/-- A `GVariant` of type `a{sa{sv}}`: the settings of a connection. -/
abbrev SettingsVariant := List (String × VardictVariant)

/-- The parameters of the three methods that add a connection:
`(@a{sa{sv}})` and `(@a{sa{sv}}u@a{sv})`. -/
inductive AddConnectionParameters where
  | settings_only (settings : SettingsVariant)
  | settings_flags_args (settings : SettingsVariant) (flags : Nat) (args : VardictVariant)
deriving DecidableEq, Repr

/-- What `_add_connection_call` passes to `_nm_object_dbus_call`: the source
tag, the method, its parameters, the reply type, and whether the internal
callback is `_add_connection_cb_with_extra_result`.  Object path, interface,
call flags and timeout are the same in every branch and are left out. -/
structure AddConnectionCall where
  source_tag : SourceTag
  method_name : String
  parameters : AddConnectionParameters
  reply_type : String
  with_extra_result : Bool
deriving DecidableEq, Repr

/-- `_add_connection_call`.  `TO_DISK` and `IN_MEMORY` are the values of
`NM_SETTINGS_ADD_CONNECTION2_FLAG_TO_DISK` and `..._IN_MEMORY`
(nm-dbus-interface.h is not among the sources); `none` is NULL. -/
def _add_connection_call (TO_DISK IN_MEMORY : Nat) (source_tag : SourceTag)
    (ignore_out_result : Bool) (settings : Option SettingsVariant) (flags : Nat)
    (args : Option VardictVariant) : AddConnectionCall :=
  let settings := settings.getD []
  if ignore_out_result ∧ flags = TO_DISK then
    ⟨source_tag, "AddConnection", .settings_only settings, "(o)", false⟩
  else if ignore_out_result ∧ flags = IN_MEMORY then
    ⟨source_tag, "AddConnectionUnsaved", .settings_only settings, "(o)", false⟩
  else
    ⟨source_tag, "AddConnection2",
      .settings_flags_args settings (flags % 2 ^ 32) (args.getD []), "(oa{sv})", true⟩

/-- `nm_client_add_connection_async`.  The connection is given by what
`nm_connection_to_dbus` makes of it; for NULL the function returns at its
`g_return_if_fail` and issues nothing. -/
def nm_client_add_connection_async (TO_DISK IN_MEMORY : Nat)
    (connection : Option SettingsVariant) (save_to_disk : Bool) : Option AddConnectionCall :=
  match connection with
  | none => none
  | some settings =>
    some (_add_connection_call TO_DISK IN_MEMORY .nm_client_add_connection_async true
      (some settings) (if save_to_disk then TO_DISK else IN_MEMORY) none)

/-- `nm_client_add_connection2`. -/
def nm_client_add_connection2 (TO_DISK IN_MEMORY : Nat) (settings : Option SettingsVariant)
    (flags : Nat) (args : Option VardictVariant) (ignore_out_result : Bool) :
    AddConnectionCall :=
  _add_connection_call TO_DISK IN_MEMORY .nm_client_add_connection2 ignore_out_result
    settings flags args

/-- A reply of type `(o)` or `(oa{sv})`: the path, and the second member if
the tuple has one. -/
structure PathReply where
  v_path : String
  v_result : Option GVariant
deriving DecidableEq, Repr

/-- A reply of type `(oo)` or `(ooa{sv})`. -/
structure ActivateReply where
  v_path : String
  v_active_connection : String
  v_result : Option GVariant
deriving DecidableEq, Repr

/-- What a reply handler of `NMClient` does with its task: it completes it
with an error, or passes it to one of the wait functions of the manager
(declared in nm-manager.h) or of the settings object. -/
inductive ClientEffect where
  | g_task_return_error (task : GTask) (error : GError)
  | nm_manager_wait_for_active_connection (active_path : String)
      (connection_path : Option String) (add_and_activate_output_take : Option GVariant)
      (task_take : GTask)
  | nm_manager_wait_for_checkpoint (checkpoint_path : String) (task_take : GTask)
  | nm_remote_settings_wait_for_connection (connection_path : String)
      (extra_results_take : Option GVariant) (task_take : GTask)
deriving DecidableEq, Repr

/-- `activate_connection_cb`.  `ret` is what `g_dbus_connection_call_finish`
returns; `g_dbus_error_strip_remote_error` is the GLib function. -/
def activate_connection_cb (g_dbus_error_strip_remote_error : GError → GError)
    (ret : Except GError PathReply) (task : GTask) : List ClientEffect :=
  match ret with
  | .error error => [.g_task_return_error task (g_dbus_error_strip_remote_error error)]
  | .ok ret => [.nm_manager_wait_for_active_connection ret.v_path none none task]

/-- `_add_and_activate_connection_done`. -/
def _add_and_activate_connection_done (g_dbus_error_strip_remote_error : GError → GError)
    (ret : Except GError ActivateReply) (use_add_and_activate_v2 : Bool) (task_take : GTask) :
    List ClientEffect :=
  match ret with
  | .error error => [.g_task_return_error task_take (g_dbus_error_strip_remote_error error)]
  | .ok ret =>
    let v_result := if use_add_and_activate_v2 then ret.v_result else none
    [.nm_manager_wait_for_active_connection ret.v_active_connection (some ret.v_path) v_result
      task_take]

/-- `_add_connection_cb`. -/
def _add_connection_cb (g_dbus_error_strip_remote_error : GError → GError)
    (ret : Except GError PathReply) (with_extra_arg : Bool) (task : GTask) :
    List ClientEffect :=
  match ret with
  | .error error => [.g_task_return_error task (g_dbus_error_strip_remote_error error)]
  | .ok ret =>
    let v_result := if with_extra_arg then ret.v_result else none
    [.nm_remote_settings_wait_for_connection ret.v_path v_result task]

/-- `checkpoint_create_cb`. -/
def checkpoint_create_cb (g_dbus_error_strip_remote_error : GError → GError)
    (ret : Except GError PathReply) (task : GTask) : List ClientEffect :=
  match ret with
  | .error error => [.g_task_return_error task (g_dbus_error_strip_remote_error error)]
  | .ok ret => [.nm_manager_wait_for_checkpoint ret.v_path task]

/-- Whether an effect completes the task. -/
def ClientEffect.completes (task : GTask) : ClientEffect → Bool
  | .g_task_return_error t _ => t == task
  | _ => false

/-- The path and the task of an effect that registers a wait. -/
def ClientEffect.wait : ClientEffect → Option (String × GTask)
  | .g_task_return_error _ _ => none
  | .nm_manager_wait_for_active_connection active_path _ _ task => some (active_path, task)
  | .nm_manager_wait_for_checkpoint checkpoint_path task => some (checkpoint_path, task)
  | .nm_remote_settings_wait_for_connection connection_path _ task =>
    some (connection_path, task)

/-- An example of extra arguments that are not empty. -/
def args_example : VardictVariant := [("plugin", "keyfile")]

/-! ## libnm: NMClient, finish functions (libnm/nm-client.c) -/

/-- What a finish function reads of a `GTask`: the address of its source
object, its source tag, and what it was completed with. -/
structure ClientTask (α : Type) where
  source_object : Nat
  source_tag : SourceTag
  result : Except GError α

/-- A pointer to a GObject as the type checks see it: a client, a task, or
an object of another type. -/
inductive GPointer (α : Type) where
  | NM_CLIENT (address : Nat)
  | G_TASK (address : Nat) (task : ClientTask α)
  | other (address : Nat)

/-- The address of an object. -/
def GPointer.address {α : Type} : GPointer α → Nat
  | .NM_CLIENT address => address
  | .G_TASK address _ => address
  | .other address => address

/-- The type check `NM_IS_CLIENT`. -/
def NM_IS_CLIENT {α : Type} : GPointer α → Bool
  | .NM_CLIENT _ => true
  | _ => false

/-- Modelled from the spec: `nm_g_task_is_valid (task, source_object,
source_tag)` (the shared helpers are not among the sources) holds when
`task` is a `GTask`, its source object is `source_object` and its source tag
is `source_tag`. -/
def nm_g_task_is_valid {α : Type} (task source_object : GPointer α) (source_tag : SourceTag) :
    Bool :=
  match task with
  | .G_TASK _ t => t.source_object == source_object.address && t.source_tag == source_tag
  | _ => false

/-- `nm_client_check_connectivity_finish`: the return value and `*error`.
`UNKNOWN` is the value of `NM_CONNECTIVITY_UNKNOWN` (nm-dbus-interface.h is
not among the sources); the result of the task is the member of the reply of
type `(u)`.  The last case, `G_TASK (result)` of an object that is no task,
is not reached. -/
def nm_client_check_connectivity_finish (UNKNOWN : Nat) (client result : GPointer Nat) :
    Nat × Option GError :=
  if !NM_IS_CLIENT client then (UNKNOWN, none)
  else if !nm_g_task_is_valid client result .nm_client_check_connectivity_async then
    (UNKNOWN, none)
  else
    match result with
    | .G_TASK _ t =>
      match t.result with
      | .error error => (UNKNOWN, some error)
      | .ok connectivity => (connectivity, none)
    | _ => (UNKNOWN, none)

/-- `nm_client_save_hostname_finish`: the return value and `*error`. -/
def nm_client_save_hostname_finish (client result : GPointer Bool) : Bool × Option GError :=
  if !NM_IS_CLIENT client then (false, none)
  else if !nm_g_task_is_valid result client .nm_client_save_hostname_async then (false, none)
  else
    match result with
    | .G_TASK _ t =>
      match t.result with
      | .error error => (false, some error)
      | .ok value => (value, none)
    | _ => (false, none)

/-- The parameter `char ***failures` of the two functions that load
connections: it points to the caller's variable, or, once `g_variant_get`
has stored the array of `^as` at `&failures`, to that array. -/
inductive FailuresParameter where
  | caller_variable
  | strv (filenames : List String)
deriving DecidableEq, Repr

/-- What a function that loads connections leaves: the return value, the
caller's variable `*failures` (`none` for NULL), the parameter `failures` at
the return, and `*error`. -/
structure LoadConnectionsResult where
  returned : Bool
  caller_failures : Option (List String)
  failures : FailuresParameter
  error : Option GError
deriving DecidableEq, Repr

/-- `nm_client_load_connections`.  `ret` is what `_nm_object_dbus_call_sync`
returns, the error or the members of the reply of type `(bas)`;
`caller_failures` is what the caller's variable holds at the call. -/
def nm_client_load_connections (ret : Except GError (Bool × List String))
    (caller_failures : Option (List String)) : LoadConnectionsResult :=
  match ret with
  | .error error => ⟨false, none, .caller_variable, some error⟩
  | .ok ret => ⟨true, caller_failures, .strv ret.2, none⟩

/-- `nm_client_load_connections_finish`. -/
def nm_client_load_connections_finish (client result : GPointer (Bool × List String))
    (caller_failures : Option (List String)) : LoadConnectionsResult :=
  if !NM_IS_CLIENT client then ⟨false, caller_failures, .caller_variable, none⟩
  else if !nm_g_task_is_valid result client .nm_client_load_connections_async then
    ⟨false, caller_failures, .caller_variable, none⟩
  else
    match result with
    | .G_TASK _ t =>
      match t.result with
      | .error error => ⟨false, none, .caller_variable, some error⟩
      | .ok ret => ⟨true, caller_failures, .strv ret.2, none⟩
    | _ => ⟨false, caller_failures, .caller_variable, none⟩

/-! ## libnm: NMClient, the object cache (libnm/nm-client.c) -/

/-- Modelled from the spec: the interface names that `obj_nm_for_gdbus_object`
compares with, the macros of nm-dbus-interface.h (not among the sources), as
distinct names, and every other interface name. -/
inductive InterfaceName where
  | NM_DBUS_INTERFACE
  | NM_DBUS_INTERFACE_ACCESS_POINT
  | NM_DBUS_INTERFACE_ACTIVE_CONNECTION
  | NM_DBUS_INTERFACE_DEVICE_6LOWPAN
  | NM_DBUS_INTERFACE_DEVICE_ADSL
  | NM_DBUS_INTERFACE_DEVICE_BOND
  | NM_DBUS_INTERFACE_DEVICE_BRIDGE
  | NM_DBUS_INTERFACE_DEVICE_BLUETOOTH
  | NM_DBUS_INTERFACE_DEVICE_DUMMY
  | NM_DBUS_INTERFACE_DEVICE_WIRED
  | NM_DBUS_INTERFACE_DEVICE_GENERIC
  | NM_DBUS_INTERFACE_DEVICE_INFINIBAND
  | NM_DBUS_INTERFACE_DEVICE_IP_TUNNEL
  | NM_DBUS_INTERFACE_DEVICE_MACSEC
  | NM_DBUS_INTERFACE_DEVICE_MACVLAN
  | NM_DBUS_INTERFACE_DEVICE_MODEM
  | NM_DBUS_INTERFACE_DEVICE_OLPC_MESH
  | NM_DBUS_INTERFACE_DEVICE_OVS_INTERFACE
  | NM_DBUS_INTERFACE_DEVICE_OVS_PORT
  | NM_DBUS_INTERFACE_DEVICE_OVS_BRIDGE
  | NM_DBUS_INTERFACE_DEVICE_WIFI_P2P
  | NM_DBUS_INTERFACE_DEVICE_PPP
  | NM_DBUS_INTERFACE_DEVICE_TEAM
  | NM_DBUS_INTERFACE_DEVICE_TUN
  | NM_DBUS_INTERFACE_DEVICE_VLAN
  | NM_DBUS_INTERFACE_DEVICE_WPAN
  | NM_DBUS_INTERFACE_DEVICE_VXLAN
  | NM_DBUS_INTERFACE_DEVICE_WIRELESS
  | NM_DBUS_INTERFACE_DEVICE_WIMAX
  | NM_DBUS_INTERFACE_DEVICE_WIREGUARD
  | NM_DBUS_INTERFACE_DHCP4_CONFIG
  | NM_DBUS_INTERFACE_DHCP6_CONFIG
  | NM_DBUS_INTERFACE_IP4_CONFIG
  | NM_DBUS_INTERFACE_IP6_CONFIG
  | NM_DBUS_INTERFACE_WIFI_P2P_PEER
  | NM_DBUS_INTERFACE_SETTINGS_CONNECTION
  | NM_DBUS_INTERFACE_SETTINGS
  | NM_DBUS_INTERFACE_DNS_MANAGER
  | NM_DBUS_INTERFACE_VPN_CONNECTION
  | NM_DBUS_INTERFACE_WIMAX_NSP
  | NM_DBUS_INTERFACE_CHECKPOINT
  | unknown (name : String)
deriving DecidableEq, Repr

/-- The `GType` of the object that `obj_nm_for_gdbus_object` creates. -/
inductive GType where
  | G_TYPE_INVALID
  | NM_TYPE_MANAGER
  | NM_TYPE_ACCESS_POINT
  | NM_TYPE_ACTIVE_CONNECTION
  | NM_TYPE_DEVICE_6LOWPAN
  | NM_TYPE_DEVICE_ADSL
  | NM_TYPE_DEVICE_BOND
  | NM_TYPE_DEVICE_BRIDGE
  | NM_TYPE_DEVICE_BT
  | NM_TYPE_DEVICE_DUMMY
  | NM_TYPE_DEVICE_ETHERNET
  | NM_TYPE_DEVICE_GENERIC
  | NM_TYPE_DEVICE_INFINIBAND
  | NM_TYPE_DEVICE_IP_TUNNEL
  | NM_TYPE_DEVICE_MACSEC
  | NM_TYPE_DEVICE_MACVLAN
  | NM_TYPE_DEVICE_MODEM
  | NM_TYPE_DEVICE_OLPC_MESH
  | NM_TYPE_DEVICE_OVS_INTERFACE
  | NM_TYPE_DEVICE_OVS_PORT
  | NM_TYPE_DEVICE_OVS_BRIDGE
  | NM_TYPE_DEVICE_WIFI_P2P
  | NM_TYPE_DEVICE_PPP
  | NM_TYPE_DEVICE_TEAM
  | NM_TYPE_DEVICE_TUN
  | NM_TYPE_DEVICE_VLAN
  | NM_TYPE_DEVICE_WPAN
  | NM_TYPE_DEVICE_VXLAN
  | NM_TYPE_DEVICE_WIFI
  | NM_TYPE_DEVICE_WIMAX
  | NM_TYPE_DEVICE_WIREGUARD
  | NM_TYPE_DHCP4_CONFIG
  | NM_TYPE_DHCP6_CONFIG
  | NM_TYPE_IP4_CONFIG
  | NM_TYPE_IP6_CONFIG
  | NM_TYPE_WIFI_P2P_PEER
  | NM_TYPE_REMOTE_CONNECTION
  | NM_TYPE_REMOTE_SETTINGS
  | NM_TYPE_DNS_MANAGER
  | NM_TYPE_VPN_CONNECTION
  | NM_TYPE_WIMAX_NSP
  | NM_TYPE_CHECKPOINT
deriving DecidableEq, Repr

/-- The chain of comparisons in the loop of `obj_nm_for_gdbus_object`: the
value of `type` after the chain for one interface name. -/
def obj_nm_type_of_interface (ifname : InterfaceName) (type : GType) : GType :=
  match ifname with
  | .NM_DBUS_INTERFACE => .NM_TYPE_MANAGER
  | .NM_DBUS_INTERFACE_ACCESS_POINT => .NM_TYPE_ACCESS_POINT
  | .NM_DBUS_INTERFACE_ACTIVE_CONNECTION =>
    if type ≠ .NM_TYPE_VPN_CONNECTION then .NM_TYPE_ACTIVE_CONNECTION else type
  | .NM_DBUS_INTERFACE_DEVICE_6LOWPAN => .NM_TYPE_DEVICE_6LOWPAN
  | .NM_DBUS_INTERFACE_DEVICE_ADSL => .NM_TYPE_DEVICE_ADSL
  | .NM_DBUS_INTERFACE_DEVICE_BOND => .NM_TYPE_DEVICE_BOND
  | .NM_DBUS_INTERFACE_DEVICE_BRIDGE => .NM_TYPE_DEVICE_BRIDGE
  | .NM_DBUS_INTERFACE_DEVICE_BLUETOOTH => .NM_TYPE_DEVICE_BT
  | .NM_DBUS_INTERFACE_DEVICE_DUMMY => .NM_TYPE_DEVICE_DUMMY
  | .NM_DBUS_INTERFACE_DEVICE_WIRED => .NM_TYPE_DEVICE_ETHERNET
  | .NM_DBUS_INTERFACE_DEVICE_GENERIC => .NM_TYPE_DEVICE_GENERIC
  | .NM_DBUS_INTERFACE_DEVICE_INFINIBAND => .NM_TYPE_DEVICE_INFINIBAND
  | .NM_DBUS_INTERFACE_DEVICE_IP_TUNNEL => .NM_TYPE_DEVICE_IP_TUNNEL
  | .NM_DBUS_INTERFACE_DEVICE_MACSEC => .NM_TYPE_DEVICE_MACSEC
  | .NM_DBUS_INTERFACE_DEVICE_MACVLAN => .NM_TYPE_DEVICE_MACVLAN
  | .NM_DBUS_INTERFACE_DEVICE_MODEM => .NM_TYPE_DEVICE_MODEM
  | .NM_DBUS_INTERFACE_DEVICE_OLPC_MESH => .NM_TYPE_DEVICE_OLPC_MESH
  | .NM_DBUS_INTERFACE_DEVICE_OVS_INTERFACE => .NM_TYPE_DEVICE_OVS_INTERFACE
  | .NM_DBUS_INTERFACE_DEVICE_OVS_PORT => .NM_TYPE_DEVICE_OVS_PORT
  | .NM_DBUS_INTERFACE_DEVICE_OVS_BRIDGE => .NM_TYPE_DEVICE_OVS_BRIDGE
  | .NM_DBUS_INTERFACE_DEVICE_WIFI_P2P => .NM_TYPE_DEVICE_WIFI_P2P
  | .NM_DBUS_INTERFACE_DEVICE_PPP => .NM_TYPE_DEVICE_PPP
  | .NM_DBUS_INTERFACE_DEVICE_TEAM => .NM_TYPE_DEVICE_TEAM
  | .NM_DBUS_INTERFACE_DEVICE_TUN => .NM_TYPE_DEVICE_TUN
  | .NM_DBUS_INTERFACE_DEVICE_VLAN => .NM_TYPE_DEVICE_VLAN
  | .NM_DBUS_INTERFACE_DEVICE_WPAN => .NM_TYPE_DEVICE_WPAN
  | .NM_DBUS_INTERFACE_DEVICE_VXLAN => .NM_TYPE_DEVICE_VXLAN
  | .NM_DBUS_INTERFACE_DEVICE_WIRELESS => .NM_TYPE_DEVICE_WIFI
  | .NM_DBUS_INTERFACE_DEVICE_WIMAX => .NM_TYPE_DEVICE_WIMAX
  | .NM_DBUS_INTERFACE_DEVICE_WIREGUARD => .NM_TYPE_DEVICE_WIREGUARD
  | .NM_DBUS_INTERFACE_DHCP4_CONFIG => .NM_TYPE_DHCP4_CONFIG
  | .NM_DBUS_INTERFACE_DHCP6_CONFIG => .NM_TYPE_DHCP6_CONFIG
  | .NM_DBUS_INTERFACE_IP4_CONFIG => .NM_TYPE_IP4_CONFIG
  | .NM_DBUS_INTERFACE_IP6_CONFIG => .NM_TYPE_IP6_CONFIG
  | .NM_DBUS_INTERFACE_WIFI_P2P_PEER => .NM_TYPE_WIFI_P2P_PEER
  | .NM_DBUS_INTERFACE_SETTINGS_CONNECTION => .NM_TYPE_REMOTE_CONNECTION
  | .NM_DBUS_INTERFACE_SETTINGS => .NM_TYPE_REMOTE_SETTINGS
  | .NM_DBUS_INTERFACE_DNS_MANAGER => .NM_TYPE_DNS_MANAGER
  | .NM_DBUS_INTERFACE_VPN_CONNECTION => .NM_TYPE_VPN_CONNECTION
  | .NM_DBUS_INTERFACE_WIMAX_NSP => .NM_TYPE_WIMAX_NSP
  | .NM_DBUS_INTERFACE_CHECKPOINT => .NM_TYPE_CHECKPOINT
  | .unknown _ => type

/-- The type check `NM_IS_DEVICE`: the types of devices. -/
def NM_IS_DEVICE (type : GType) : Bool :=
  match type with
  | .NM_TYPE_DEVICE_6LOWPAN
  | .NM_TYPE_DEVICE_ADSL
  | .NM_TYPE_DEVICE_BOND
  | .NM_TYPE_DEVICE_BRIDGE
  | .NM_TYPE_DEVICE_BT
  | .NM_TYPE_DEVICE_DUMMY
  | .NM_TYPE_DEVICE_ETHERNET
  | .NM_TYPE_DEVICE_GENERIC
  | .NM_TYPE_DEVICE_INFINIBAND
  | .NM_TYPE_DEVICE_IP_TUNNEL
  | .NM_TYPE_DEVICE_MACSEC
  | .NM_TYPE_DEVICE_MACVLAN
  | .NM_TYPE_DEVICE_MODEM
  | .NM_TYPE_DEVICE_OLPC_MESH
  | .NM_TYPE_DEVICE_OVS_INTERFACE
  | .NM_TYPE_DEVICE_OVS_PORT
  | .NM_TYPE_DEVICE_OVS_BRIDGE
  | .NM_TYPE_DEVICE_WIFI_P2P
  | .NM_TYPE_DEVICE_PPP
  | .NM_TYPE_DEVICE_TEAM
  | .NM_TYPE_DEVICE_TUN
  | .NM_TYPE_DEVICE_VLAN
  | .NM_TYPE_DEVICE_WPAN
  | .NM_TYPE_DEVICE_VXLAN
  | .NM_TYPE_DEVICE_WIFI
  | .NM_TYPE_DEVICE_WIMAX
  | .NM_TYPE_DEVICE_WIREGUARD => true
  | _ => false
/-- The loop of `obj_nm_for_gdbus_object` over the interfaces of an object:
it ends at the first interface after which `type` is valid. -/
def obj_nm_type_loop : List InterfaceName → GType → GType
  | [], type => type
  | ifname :: l, type =>
    let type := obj_nm_type_of_interface ifname type
    if type ≠ .G_TYPE_INVALID then type else obj_nm_type_loop l type

/-- An `NMObject`: its type, the path of the `GDBusObject` it was created
for, and the udev context of a device. -/
structure NMObject where
  type : GType
  dbus_object : String
  udev : Option Nat
deriving DecidableEq, Repr

/-- A `GDBusObject` of the object manager: its path, the interface names of
its proxies in the order of `g_dbus_object_get_interfaces`, and the data under
`_nm_object_obj_nm_quark`. -/
structure GDBusObject where
  path : String
  interfaces : List InterfaceName
  obj_nm : Option NMObject
deriving DecidableEq, Repr

/-- `NMClientPrivate`: the three objects, the object manager (its objects),
and the udev context.  `new_object_manager_cancellable` and
`name_owner_cached` are left out. -/
structure NMClientPrivate where
  manager : Option NMObject
  settings : Option NMObject
  dns_manager : Option NMObject
  object_manager : Option (List GDBusObject)
  udev : Option Nat
  udev_inited : Bool
deriving DecidableEq, Repr

/-- What `NMClient` reads of its surroundings: the object paths of the
manager, of the settings and of the DNS manager (macros of
nm-dbus-interface.h), the environment variable `LIBNM_USE_NO_UDEV`, and what
`udev_new` returns. -/
structure ClientEnv where
  NM_DBUS_PATH : String
  NM_DBUS_PATH_SETTINGS : String
  NM_DBUS_PATH_DNS_MANAGER : String
  LIBNM_USE_NO_UDEV : Option String
  udev_new : Option Nat
deriving DecidableEq, Repr

/-- `obj_nm_for_gdbus_object`: the private data, the object with its data
under the quark, and the `NMObject` returned (`none` for NULL). -/
def obj_nm_for_gdbus_object (env : ClientEnv) (priv : NMClientPrivate) (object : GDBusObject) :
    NMClientPrivate × GDBusObject × Option NMObject :=
  let type := obj_nm_type_loop object.interfaces .G_TYPE_INVALID
  if type = .G_TYPE_INVALID then (priv, object, none)
  else
    let obj_nm : NMObject := ⟨type, object.path, none⟩
    let st : NMClientPrivate × NMObject :=
      if NM_IS_DEVICE obj_nm.type then
        let priv :=
          if !priv.udev_inited then
            let priv := { priv with udev_inited := true }
            if env.LIBNM_USE_NO_UDEV ≠ some "1" then { priv with udev := env.udev_new }
            else priv
          else priv
        if priv.udev.isSome then (priv, { obj_nm with udev := priv.udev }) else (priv, obj_nm)
      else (priv, obj_nm)
    (st.1, { object with obj_nm := some st.2 }, some st.2)

/-- The first loop of `objects_created`: `obj_nm_for_gdbus_object` for every
object of the object manager, in order. -/
def objects_created_loop (env : ClientEnv) :
    List GDBusObject → NMClientPrivate → NMClientPrivate × List GDBusObject
  | [], priv => (priv, [])
  | object :: l, priv =>
    let r := obj_nm_for_gdbus_object env priv object
    let rest := objects_created_loop env l r.1
    (rest.1, r.2.1 :: rest.2)

/-- `g_dbus_object_manager_get_object`: the object at the path. -/
def g_dbus_object_manager_get_object (object_manager : List GDBusObject) (path : String) :
    Option GDBusObject :=
  object_manager.find? (fun object => object.path == path)

/-- The error of `objects_created`, with its message. -/
def NM_CLIENT_ERROR_MANAGER_NOT_RUNNING (message : String) : GError :=
  ⟨"nm-client-error-quark", "NM_CLIENT_ERROR_MANAGER_NOT_RUNNING", message⟩

/-- What `objects_created` leaves: the return value, the private data, the
objects of the object manager with their data under the quark, and `*error`. -/
structure ObjectsCreatedResult where
  returned : Bool
  priv : NMClientPrivate
  object_manager : List GDBusObject
  error : Option GError
deriving DecidableEq, Repr

/-- `objects_created`.  The signal connections are left out. -/
def objects_created (env : ClientEnv) (priv : NMClientPrivate)
    (object_manager : List GDBusObject) : ObjectsCreatedResult :=
  let st := objects_created_loop env object_manager priv
  let priv := st.1
  let object_manager := st.2
  match g_dbus_object_manager_get_object object_manager env.NM_DBUS_PATH with
  | none =>
    ⟨false, priv, object_manager,
      some (NM_CLIENT_ERROR_MANAGER_NOT_RUNNING "Manager object not found")⟩
  | some manager =>
  match manager.obj_nm with
  | none =>
    ⟨false, priv, object_manager,
      some (NM_CLIENT_ERROR_MANAGER_NOT_RUNNING "Manager object lacks the proper interface")⟩
  | some obj_nm =>
  let priv := { priv with manager := some obj_nm }
  match g_dbus_object_manager_get_object object_manager env.NM_DBUS_PATH_SETTINGS with
  | none =>
    ⟨false, priv, object_manager,
      some (NM_CLIENT_ERROR_MANAGER_NOT_RUNNING "Settings object not found")⟩
  | some settings =>
  match settings.obj_nm with
  | none =>
    ⟨false, priv, object_manager,
      some (NM_CLIENT_ERROR_MANAGER_NOT_RUNNING "Settings object lacks the proper interface")⟩
  | some obj_nm =>
  let priv := { priv with settings := some obj_nm }
  match g_dbus_object_manager_get_object object_manager env.NM_DBUS_PATH_DNS_MANAGER with
  | some dns_manager =>
    match dns_manager.obj_nm with
    | none =>
      ⟨false, priv, object_manager,
        some (NM_CLIENT_ERROR_MANAGER_NOT_RUNNING
          "DNS manager object lacks the proper interface")⟩
    | some obj_nm => ⟨true, { priv with dns_manager := some obj_nm }, object_manager, none⟩
  | none => ⟨true, priv, object_manager, none⟩

/-- `nm_client_get_nm_running`. -/
def nm_client_get_nm_running (priv : NMClientPrivate) : Bool := priv.manager.isSome

/-- What `got_object_manager` leaves: the private data, the error taken by
the result of the initialisation, and `pending_init`. -/
structure GotObjectManagerResult where
  priv : NMClientPrivate
  error : Option GError
  pending_init : Nat
deriving DecidableEq, Repr

/-- `got_object_manager`.  `object_manager` is what
`g_dbus_object_manager_client_new_for_bus_finish` returns, `name_owner` what
`g_dbus_object_manager_client_get_name_owner` returns for it. -/
def got_object_manager (env : ClientEnv) (priv : NMClientPrivate)
    (object_manager : Except GError (List GDBusObject)) (name_owner : Option String) :
    GotObjectManagerResult :=
  match object_manager with
  | .error error => ⟨priv, some error, 0⟩
  | .ok object_manager =>
    let priv := { priv with object_manager := some object_manager }
    if name_owner.isSome then
      let r := objects_created env priv object_manager
      let priv := { r.priv with object_manager := some r.object_manager }
      if !r.returned then ⟨priv, r.error, 0⟩
      else ⟨priv, none, (r.object_manager.filter (fun object => object.obj_nm.isSome)).length⟩
    else ⟨priv, none, 0⟩

/-- The properties of `NMClient` that `unhook_om` notifies. -/
inductive NMClientProperty where
  | ACTIVE_CONNECTIONS
  | NM_RUNNING
  | CONNECTIONS
  | HOSTNAME
  | CAN_MODIFY
deriving DecidableEq, Repr

/-- The signals that `NMClient` emits in the functions below; devices, active
connections and connections are named by their addresses. -/
inductive NMClientSignal where
  | DEVICE_REMOVED (device : Nat)
  | ANY_DEVICE_REMOVED (device : Nat)
  | ACTIVE_CONNECTION_REMOVED (active_connection : Nat)
  | CONNECTION_REMOVED (connection : Nat)
  | notify (property : NMClientProperty)
deriving DecidableEq, Repr

/-- `manager_device_removed`, connected to device-removed of the manager. -/
def manager_device_removed (device : Nat) : List NMClientSignal := [.DEVICE_REMOVED device]

/-- `manager_any_device_removed`, connected to any-device-removed of the
manager. -/
def manager_any_device_removed (device : Nat) : List NMClientSignal :=
  [.ANY_DEVICE_REMOVED device]

/-- `unhook_om`: the private data and the signals emitted, in order.  The
three getters (declared in nm-manager.h and nm-remote-settings.h) are given
by what they return for an object. -/
def unhook_om (nm_manager_get_active_connections nm_manager_get_all_devices
    nm_remote_settings_get_connections : NMObject → List Nat) (priv : NMClientPrivate) :
    NMClientPrivate × List NMClientSignal :=
  let st1 : NMClientPrivate × List NMClientSignal :=
    match priv.manager with
    | some manager =>
      ({ priv with manager := none },
        (nm_manager_get_active_connections manager).map .ACTIVE_CONNECTION_REMOVED ++
        (nm_manager_get_all_devices manager).map .DEVICE_REMOVED ++
        [.notify .ACTIVE_CONNECTIONS, .notify .NM_RUNNING])
    | none => (priv, [])
  let st2 : NMClientPrivate × List NMClientSignal :=
    match st1.1.settings with
    | some settings =>
      ({ st1.1 with settings := none },
        st1.2 ++ (nm_remote_settings_get_connections settings).map .CONNECTION_REMOVED ++
        [.notify .CONNECTIONS, .notify .HOSTNAME, .notify .CAN_MODIFY])
    | none => st1
  let priv := { st2.1 with dns_manager := none }
  ({ priv with object_manager :=
      priv.object_manager.map (fun objects =>
        objects.map (fun object => { object with obj_nm := none })) }, st2.2)

/-- The environment of a client with the paths of NetworkManager. -/
def client_env : ClientEnv :=
  ⟨"/org/freedesktop/NetworkManager", "/org/freedesktop/NetworkManager/Settings",
    "/org/freedesktop/NetworkManager/DnsManager", none, some 1⟩

/-- The private data of a new client. -/
def client_new : NMClientPrivate := ⟨none, none, none, none, none, false⟩

/-- An object manager that has the manager object and no settings object. -/
def object_manager_no_settings : List GDBusObject :=
  [⟨"/org/freedesktop/NetworkManager", [.NM_DBUS_INTERFACE], none⟩]

/-- The object of a VPN connection whose proxies come with the generic
interface first. -/
def object_vpn_generic_first : GDBusObject :=
  ⟨"/org/freedesktop/NetworkManager/ActiveConnection/1",
    [.NM_DBUS_INTERFACE_ACTIVE_CONNECTION, .NM_DBUS_INTERFACE_VPN_CONNECTION], none⟩

/-- The same object with the VPN interface first. -/
def object_vpn_first : GDBusObject :=
  ⟨"/org/freedesktop/NetworkManager/ActiveConnection/1",
    [.NM_DBUS_INTERFACE_VPN_CONNECTION, .NM_DBUS_INTERFACE_ACTIVE_CONNECTION], none⟩

/-- The manager object of a running client. -/
def manager_example : NMObject := ⟨.NM_TYPE_MANAGER, "/org/freedesktop/NetworkManager", none⟩

/-- The private data of a client whose manager is set. -/
def client_running : NMClientPrivate := ⟨some manager_example, none, none, some [], none, false⟩

/-- A manager with the device 1 and the placeholder 2: what
`nm_manager_get_devices` returns. -/
def devices_example (_ : NMObject) : List Nat := [1]

/-- A manager with the device 1 and the placeholder 2: what
`nm_manager_get_all_devices` returns. -/
def all_devices_example (_ : NMObject) : List Nat := [1, 2]

/-! ## Properties of the command line -/

/-- An optional flag appends at most one argument. -/
theorem ite_add_string (c : Prop) [Decidable c] (cmd : NMCmdLine) (str : String) :
    (if c then nm_cmd_line_add_string cmd str else cmd) =
      ⟨cmd.array ++ if c then [str] else []⟩ := by
  split <;> simp [nm_cmd_line_add_string]

/-- An optional number appends at most one argument. -/
theorem ite_add_int (c : Prop) [Decidable c] (cmd : NMCmdLine) (i : Int) :
    (if c then nm_cmd_line_add_int cmd i else cmd) =
      ⟨cmd.array ++ if c then [toString i] else []⟩ := by
  split <;> simp [nm_cmd_line_add_string, nm_cmd_line_add_int]

/-- An optional flag with a value appends the pair or nothing. -/
theorem ite_add_pair (c : Prop) [Decidable c] (cmd : NMCmdLine) (str : String) (i : Int) :
    (if c then nm_cmd_line_add_int (nm_cmd_line_add_string cmd str) i else cmd) =
      ⟨cmd.array ++ if c then [str, toString i] else []⟩ := by
  split <;> simp [nm_cmd_line_add_string, nm_cmd_line_add_int]

/-- Normal form of the command line: the binary, the three fixed arguments,
the arguments of the options, the plugin flag and its path. -/
theorem create_pppd_cmd_line_normal_form (g_file_test : String → Bool) (LIBDIR : String)
    (setting : NMSettingPPP) (device ppp_binary : String)
    (h : nm_find_pppd g_file_test = some ppp_binary) :
    create_pppd_cmd_line g_file_test LIBDIR setting device =
      .ok ⟨[ppp_binary, "nodetach", "lock", device] ++ option_args setting ++
            ["plugin", NM_PPPD_PLUGIN LIBDIR]⟩ := by
  unfold create_pppd_cmd_line
  rw [h]
  simp only [ite_add_string, ite_add_int, ite_add_pair, option_args]
  simp only [nm_cmd_line_add_string, nm_cmd_line_new, List.append_assoc, List.nil_append,
    List.cons_append, List.singleton_append]

/-- The result of `nm_find_pppd`, path by path. -/
theorem nm_find_pppd_eq (g_file_test : String → Bool) :
    nm_find_pppd g_file_test =
      if g_file_test "/usr/local/sbin/pppd" then some "/usr/local/sbin/pppd"
      else if g_file_test "/usr/sbin/pppd" then some "/usr/sbin/pppd"
      else if g_file_test "/sbin/pppd" then some "/sbin/pppd"
      else none := by
  simp only [nm_find_pppd, pppd_binary_paths, List.find?]
  cases g_file_test "/usr/local/sbin/pppd" <;> cases g_file_test "/usr/sbin/pppd" <;>
    cases g_file_test "/sbin/pppd" <;> rfl

/-- Normal form of the command line for `setting_example`. -/
theorem create_pppd_cmd_line_setting_example (g_file_test : String → Bool)
    (LIBDIR device ppp_binary : String) (h : nm_find_pppd g_file_test = some ppp_binary) :
    create_pppd_cmd_line g_file_test LIBDIR setting_example device =
      .ok ⟨[ppp_binary, "nodetach", "lock", device, "noauth", "refuse-eap", "mru", "1400",
            "lcp-echo-failure", "3", "lcp-echo-interval", "5", "plugin",
            NM_PPPD_PLUGIN LIBDIR]⟩ := by
  simp [create_pppd_cmd_line, h, setting_example, setting_none, nm_cmd_line_add_string,
    nm_cmd_line_add_int, nm_cmd_line_new]
  decide

/-- The command line is built exactly when `nm_find_pppd` finds a binary. -/
theorem create_pppd_cmd_line_ok_iff (g_file_test : String → Bool) (LIBDIR : String)
    (setting : NMSettingPPP) (device : String) :
    (∃ cmd, create_pppd_cmd_line g_file_test LIBDIR setting device = .ok cmd) ↔
      ∃ ppp_binary, nm_find_pppd g_file_test = some ppp_binary := by
  unfold create_pppd_cmd_line
  cases nm_find_pppd g_file_test <;> simp

/-- Only /usr/sbin/pppd is found in the file system `only_usr_sbin`. -/
theorem nm_find_pppd_only_usr_sbin : nm_find_pppd only_usr_sbin = some "/usr/sbin/pppd" := by
  decide

/-- C1 as stated fails: with only /usr/sbin/pppd present and the device
ttyS0, the command line for `setting_example` does not hold noauth, mru 1400,
lcp-echo-interval 5 and lcp-echo-failure 3 in this order. -/
theorem create_pppd_cmd_line_interval_not_before_failure :
    ∃ cmd, create_pppd_cmd_line only_usr_sbin "/usr/lib" setting_example "ttyS0" = .ok cmd ∧
      ¬ in_order cmd.array "noauth" ("mru", "1400") ("lcp-echo-interval", "5")
          ("lcp-echo-failure", "3") := by
  refine ⟨_, create_pppd_cmd_line_setting_example _ _ _ _ nm_find_pppd_only_usr_sbin, ?_⟩
  rintro ⟨i, j, k, m, -, -, hkm, -, -, ⟨hk, -⟩, ⟨hm, -⟩⟩
  have hk14 : k < 14 := by
    by_contra hc
    rw [List.getElem?_eq_none (by simpa using hc)] at hk
    cases hk
  have hm14 : m < 14 := by
    by_contra hc
    rw [List.getElem?_eq_none (by simpa using hc)] at hm
    cases hm
  have hk10 : k = 10 := by
    interval_cases k <;> first | rfl | (exfalso; revert hk; decide)
  have hm8 : m = 8 := by
    interval_cases m <;> first | rfl | (exfalso; revert hm; decide)
  omega

/-- C1, amended: for every device name and every file system in which a pppd
binary is found, the command line for `setting_example` holds noauth, then the
pair mru 1400, then the pair lcp-echo-failure 3, then the pair
lcp-echo-interval 5, in this order. -/
theorem create_pppd_cmd_line_example_order (g_file_test : String → Bool)
    (LIBDIR device : String) (cmd : NMCmdLine)
    (h : create_pppd_cmd_line g_file_test LIBDIR setting_example device = .ok cmd) :
    in_order cmd.array "noauth" ("mru", "1400") ("lcp-echo-failure", "3")
      ("lcp-echo-interval", "5") := by
  obtain ⟨ppp_binary, hb⟩ := (create_pppd_cmd_line_ok_iff _ _ _ _).1 ⟨cmd, h⟩
  rw [create_pppd_cmd_line_setting_example _ _ _ _ hb] at h
  cases h
  exact ⟨4, 6, 8, 10, by decide, by decide, by decide, rfl, ⟨rfl, rfl⟩, ⟨rfl, rfl⟩, ⟨rfl, rfl⟩⟩

/-- Witness of `create_pppd_cmd_line_example_order`: only /usr/sbin/pppd
present, device ttyS0. -/
theorem create_pppd_cmd_line_example_order_witness :
    create_pppd_cmd_line only_usr_sbin "/usr/lib" setting_example "ttyS0" =
      .ok ⟨["/usr/sbin/pppd", "nodetach", "lock", "ttyS0", "noauth", "refuse-eap", "mru",
        "1400", "lcp-echo-failure", "3", "lcp-echo-interval", "5", "plugin",
        "/usr/lib/nm-pppd-plugin.so"]⟩ ∧
    in_order ["/usr/sbin/pppd", "nodetach", "lock", "ttyS0", "noauth", "refuse-eap", "mru",
        "1400", "lcp-echo-failure", "3", "lcp-echo-interval", "5", "plugin",
        "/usr/lib/nm-pppd-plugin.so"]
      "noauth" ("mru", "1400") ("lcp-echo-failure", "3") ("lcp-echo-interval", "5") :=
  ⟨rfl, create_pppd_cmd_line_example_order only_usr_sbin "/usr/lib" "ttyS0" _ rfl⟩

/-- C2 at the failing input: with noauth as the only option set, the command
line holds the flag refuse-eap although `refuse_eap` is not set. -/
theorem create_pppd_cmd_line_noauth_adds_refuse_eap :
    setting_noauth.refuse_eap = false ∧
    create_pppd_cmd_line only_usr_sbin "/usr/lib" setting_noauth "ttyS0" =
      .ok ⟨["/usr/sbin/pppd", "nodetach", "lock", "ttyS0", "noauth", "refuse-eap", "plugin",
            "/usr/lib/nm-pppd-plugin.so"]⟩ :=
  ⟨rfl, rfl⟩

/-- C3 as stated fails: with no option set, device ttyS0 and /usr/sbin/pppd
present, the vector handed to `g_spawn_async` does not end with the plugin
flag and the plugin path. -/
theorem nm_ppp_manager_start_plugin_not_last :
    ∃ argv, (nm_ppp_manager_start env_spawn_ok nm_ppp_manager_new "ttyS0" setting_none).calls.head?
        = some (.g_spawn_async argv) ∧
      ¬ (["plugin", NM_PPPD_PLUGIN env_spawn_ok.LIBDIR] <:+ argv) := by
  refine ⟨["/usr/sbin/pppd", "nodetach", "lock", "ttyS0", "plugin", "/usr/lib/nm-pppd-plugin.so",
    "defaultroute"], rfl, ?_⟩
  decide

/-- C3, amended: when a pppd binary is found, the first call of
`nm_ppp_manager_start` is `g_spawn_async`, no other vector is handed to it,
and the vector ends with the plugin flag, the plugin path and the argument
defaultroute that `nm_ppp_manager_start` adds; the list built by
`create_pppd_cmd_line` ends with the plugin flag and the plugin path. -/
theorem nm_ppp_manager_start_argv_tail (env : Env) (priv : NMPPPManagerPrivate)
    (device : String) (setting : NMSettingPPP) (ppp_binary : String)
    (h : nm_find_pppd env.g_file_test = some ppp_binary) :
    ∃ front,
      create_pppd_cmd_line env.g_file_test env.LIBDIR setting device =
        .ok ⟨front ++ ["plugin", NM_PPPD_PLUGIN env.LIBDIR]⟩ ∧
      (nm_ppp_manager_start env priv device setting).calls.head? =
        some (.g_spawn_async (front ++ ["plugin", NM_PPPD_PLUGIN env.LIBDIR, "defaultroute"])) ∧
      ∀ argv, Call.g_spawn_async argv ∈ (nm_ppp_manager_start env priv device setting).calls →
        argv = front ++ ["plugin", NM_PPPD_PLUGIN env.LIBDIR, "defaultroute"] := by
  refine ⟨[ppp_binary, "nodetach", "lock", device] ++ option_args setting, ?_, ?_, ?_⟩
  · exact create_pppd_cmd_line_normal_form _ _ _ _ _ h
  · simp only [nm_ppp_manager_start, create_pppd_cmd_line_normal_form _ _ _ _ _ h,
      nm_cmd_line_add_string]
    cases env.g_spawn_async _ <;> simp
  · intro argv
    simp only [nm_ppp_manager_start, create_pppd_cmd_line_normal_form _ _ _ _ _ h,
      nm_cmd_line_add_string, start_dbus_watcher]
    cases env.g_spawn_async _ <;> simp

/-- Witness of `nm_ppp_manager_start_argv_tail`: no option set, device ttyS0,
/usr/sbin/pppd present. -/
theorem nm_ppp_manager_start_argv_tail_witness :
    nm_find_pppd env_spawn_ok.g_file_test = some "/usr/sbin/pppd" ∧
    ∃ front,
      create_pppd_cmd_line env_spawn_ok.g_file_test env_spawn_ok.LIBDIR setting_none "ttyS0" =
        .ok ⟨front ++ ["plugin", NM_PPPD_PLUGIN env_spawn_ok.LIBDIR]⟩ ∧
      (nm_ppp_manager_start env_spawn_ok nm_ppp_manager_new "ttyS0" setting_none).calls.head? =
        some (.g_spawn_async
          (front ++ ["plugin", NM_PPPD_PLUGIN env_spawn_ok.LIBDIR, "defaultroute"])) ∧
      ∀ argv, Call.g_spawn_async argv ∈
          (nm_ppp_manager_start env_spawn_ok nm_ppp_manager_new "ttyS0" setting_none).calls →
        argv = front ++ ["plugin", NM_PPPD_PLUGIN env_spawn_ok.LIBDIR, "defaultroute"] :=
  ⟨nm_find_pppd_only_usr_sbin,
    nm_ppp_manager_start_argv_tail env_spawn_ok nm_ppp_manager_new "ttyS0" setting_none
      "/usr/sbin/pppd" nm_find_pppd_only_usr_sbin⟩

/-- C9: `create_pppd_cmd_line` fails, with the error of the manager's domain,
if and only if none of the three fixed paths exists; a command line that is
built starts with the first of the paths that exists; and when it fails,
`nm_ppp_manager_start` returns FALSE with that error, makes no call (no
process is spawned, no timer is added) and leaves the private data as they
were. -/
theorem create_pppd_cmd_line_binary_not_found (env : Env) (priv : NMPPPManagerPrivate)
    (device : String) (setting : NMSettingPPP) :
    ((∃ e, create_pppd_cmd_line env.g_file_test env.LIBDIR setting device = .error e) ↔
      (env.g_file_test "/usr/local/sbin/pppd" = false ∧ env.g_file_test "/usr/sbin/pppd" = false ∧
        env.g_file_test "/sbin/pppd" = false)) ∧
    (∀ e, create_pppd_cmd_line env.g_file_test env.LIBDIR setting device = .error e →
      e = ⟨NM_PPP_MANAGER_ERROR, NM_PPP_MANAGER_ERROR, "Could not find ppp binary."⟩ ∧
      nm_ppp_manager_start env priv device setting = ⟨false, priv, some e, []⟩) ∧
    (∀ cmd, create_pppd_cmd_line env.g_file_test env.LIBDIR setting device = .ok cmd →
      cmd.array.head? = some
        (if env.g_file_test "/usr/local/sbin/pppd" then "/usr/local/sbin/pppd"
         else if env.g_file_test "/usr/sbin/pppd" then "/usr/sbin/pppd"
         else "/sbin/pppd")) := by
  have hf := nm_find_pppd_eq env.g_file_test
  refine ⟨?_, ?_, ?_⟩
  · cases h : nm_find_pppd env.g_file_test with
    | none =>
      rw [h] at hf
      have herr : ∃ e, create_pppd_cmd_line env.g_file_test env.LIBDIR setting device =
          .error e := by
        simp [create_pppd_cmd_line, h]
      refine ⟨fun _ => ?_, fun _ => herr⟩
      revert hf
      cases env.g_file_test "/usr/local/sbin/pppd" <;> cases env.g_file_test "/usr/sbin/pppd" <;>
        cases env.g_file_test "/sbin/pppd" <;> simp
    | some ppp_binary =>
      rw [h] at hf
      rw [create_pppd_cmd_line_normal_form _ _ _ _ _ h]
      constructor
      · rintro ⟨e, he⟩
        cases he
      · rintro ⟨h1, h2, h3⟩
        simp [h1, h2, h3] at hf
  · intro e he
    have he2 : e = ⟨NM_PPP_MANAGER_ERROR, NM_PPP_MANAGER_ERROR, "Could not find ppp binary."⟩ := by
      unfold create_pppd_cmd_line at he
      split at he
      · cases he; rfl
      · cases he
    refine ⟨he2, ?_⟩
    simp only [nm_ppp_manager_start, he]
  · intro cmd hcmd
    obtain ⟨ppp_binary, hb⟩ := (create_pppd_cmd_line_ok_iff _ _ _ _).1 ⟨cmd, hcmd⟩
    rw [create_pppd_cmd_line_normal_form _ _ _ _ _ hb] at hcmd
    cases hcmd
    rw [hb] at hf
    revert hf
    cases env.g_file_test "/usr/local/sbin/pppd" <;> cases env.g_file_test "/usr/sbin/pppd" <;>
      cases env.g_file_test "/sbin/pppd" <;> simp

/-! ## Properties of the life cycle -/

/-- The private data that `nm_ppp_manager_stop` leaves. -/
theorem nm_ppp_manager_stop_priv (s : NMPPPManagerPrivate) :
    (nm_ppp_manager_stop s).1 = ⟨0, none, 0, 0, s.name_owner_changed_handler⟩ := by
  obtain ⟨pid, mgr, sh, th, nh⟩ := s
  unfold nm_ppp_manager_stop
  by_cases h1 : th = 0 <;> by_cases h2 : sh = 0 <;> by_cases h3 : pid = 0 <;>
    cases mgr <;> simp [h1, h2, h3]

/-- A stopped manager makes no call when it is stopped again. -/
theorem nm_ppp_manager_stop_stopped (n : Nat) :
    nm_ppp_manager_stop ⟨0, none, 0, 0, n⟩ = (⟨0, none, 0, 0, n⟩, []) := by
  simp [nm_ppp_manager_stop]

/-- The signals that `nm_ppp_manager_stop` sends. -/
theorem nm_ppp_manager_stop_kill (s : NMPPPManagerPrivate) :
    (nm_ppp_manager_stop s).2.filter Call.is_kill =
      if s.pid ≠ 0 then [.kill s.pid SIGTERM] else [] := by
  obtain ⟨pid, mgr, sh, th, nh⟩ := s
  unfold nm_ppp_manager_stop
  by_cases h1 : th = 0 <;> by_cases h2 : sh = 0 <;> by_cases h3 : pid = 0 <;>
    cases mgr <;> simp [h1, h2, h3, Call.is_kill, List.filter]

/-- C7: `nm_ppp_manager_stop` is idempotent.  Stopping a stopped manager
leaves the private data as they are and makes no call at all (no signal, no
timer or handler removed); a stop sends SIGTERM, once and to the stored pid,
if and only if the stored pid is not zero. -/
theorem nm_ppp_manager_stop_idempotent (s : NMPPPManagerPrivate) :
    nm_ppp_manager_stop (nm_ppp_manager_stop s).1 = ((nm_ppp_manager_stop s).1, []) ∧
    ((∃ c ∈ (nm_ppp_manager_stop s).2, c.is_kill = true) ↔ s.pid ≠ 0) ∧
    (nm_ppp_manager_stop s).2.filter Call.is_kill =
      if s.pid ≠ 0 then [.kill s.pid SIGTERM] else [] := by
  refine ⟨?_, ?_, nm_ppp_manager_stop_kill s⟩
  · rw [nm_ppp_manager_stop_priv, nm_ppp_manager_stop_stopped]
  · have hk := nm_ppp_manager_stop_kill s
    constructor
    · rintro ⟨c, hc, hck⟩ h0
      have : c ∈ (nm_ppp_manager_stop s).2.filter Call.is_kill := List.mem_filter.2 ⟨hc, hck⟩
      rw [hk] at this
      simp [h0] at this
    · intro h0
      have : Call.kill s.pid SIGTERM ∈ (nm_ppp_manager_stop s).2.filter Call.is_kill := by
        rw [hk]; simp [h0]
      exact ⟨_, (List.mem_filter.1 this).1, rfl⟩

/-- C10: given that a successful `g_spawn_async` stores a positive pid,
`nm_ppp_manager_start` returns TRUE if and only if the command line was built
and `g_spawn_async` succeeded on it.  When `g_spawn_async` fails, the function
returns FALSE with the spawner's error, the stored pid is 0, the spawn attempt
is the only call made (no timer added, no signal connected, no D-Bus manager
obtained) and the three handles are as before the call; a manager that was
new before a failed start is new after it. -/
theorem nm_ppp_manager_start_spawn_result (env : Env) (priv : NMPPPManagerPrivate)
    (device : String) (setting : NMSettingPPP)
    (hpid : ∀ argv pid, env.g_spawn_async argv = .ok pid → 0 < pid) :
    ((nm_ppp_manager_start env priv device setting).ret = true ↔
      ∃ cmd pid, create_pppd_cmd_line env.g_file_test env.LIBDIR setting device = .ok cmd ∧
        env.g_spawn_async (cmd.array ++ ["defaultroute"]) = .ok pid) ∧
    (∀ cmd e, create_pppd_cmd_line env.g_file_test env.LIBDIR setting device = .ok cmd →
      env.g_spawn_async (cmd.array ++ ["defaultroute"]) = .error e →
      (nm_ppp_manager_start env priv device setting).ret = false ∧
      (nm_ppp_manager_start env priv device setting).err = some e ∧
      (nm_ppp_manager_start env priv device setting).calls =
        [.g_spawn_async (cmd.array ++ ["defaultroute"])] ∧
      (nm_ppp_manager_start env priv device setting).priv.pid = 0 ∧
      (nm_ppp_manager_start env priv device setting).priv.ppp_timeout_handler =
        priv.ppp_timeout_handler ∧
      (nm_ppp_manager_start env priv device setting).priv.name_owner_changed_handler =
        priv.name_owner_changed_handler ∧
      (nm_ppp_manager_start env priv device setting).priv.dbus_manager = priv.dbus_manager ∧
      (nm_ppp_manager_start env priv device setting).priv.signal_handler =
        priv.signal_handler) ∧
    (priv = nm_ppp_manager_new → (nm_ppp_manager_start env priv device setting).ret = false →
      (nm_ppp_manager_start env priv device setting).priv = nm_ppp_manager_new) := by
  cases hc : create_pppd_cmd_line env.g_file_test env.LIBDIR setting device with
  | error e0 =>
    refine ⟨?_, ?_, ?_⟩
    · simp [nm_ppp_manager_start, hc]
    · intro cmd e h
      cases h
    · intro hp _
      simp [nm_ppp_manager_start, hc, hp]
  | ok cmd0 =>
    cases hs : env.g_spawn_async (cmd0.array ++ ["defaultroute"]) with
    | error e0 =>
      refine ⟨?_, ?_, ?_⟩
      · simp [nm_ppp_manager_start, hc, hs, nm_cmd_line_add_string]
      · intro cmd e h he
        cases h
        rw [hs] at he
        cases he
        simp [nm_ppp_manager_start, hc, hs, nm_cmd_line_add_string]
      · intro hp _
        simp [nm_ppp_manager_start, hc, hs, nm_cmd_line_add_string, hp, nm_ppp_manager_new]
    | ok pid0 =>
      have hpos := hpid _ _ hs
      refine ⟨?_, ?_, ?_⟩
      · simp [nm_ppp_manager_start, hc, hs, nm_cmd_line_add_string, start_dbus_watcher, hpos]
      · intro cmd e h he
        cases h
        rw [hs] at he
        cases he
      · intro _ hr
        simp [nm_ppp_manager_start, hc, hs, nm_cmd_line_add_string, start_dbus_watcher, hpos] at hr

/-- Witness of `nm_ppp_manager_start_spawn_result`: /usr/sbin/pppd present, a
spawner that succeeds with pid 4242, a new manager, device ttyS0 and
`setting_example`. -/
theorem nm_ppp_manager_start_spawn_result_witness :
    (∀ argv pid, env_spawn_ok.g_spawn_async argv = .ok pid → 0 < pid) ∧
    (nm_ppp_manager_start env_spawn_ok nm_ppp_manager_new "ttyS0" setting_example).ret = true :=
  ⟨(fun _ _ h => by cases h; decide),
    (nm_ppp_manager_start_spawn_result env_spawn_ok nm_ppp_manager_new "ttyS0"
      setting_example (fun _ _ h => by cases h; decide)).1.2 ⟨_, _, rfl, rfl⟩⟩

/-! ## Properties of the exit codes -/

/-- The codes that have a message of their own. -/
theorem ppp_exit_code_nodup : ((List.range 20).map ppp_exit_code).Nodup := by
  decide

/-- C8: the codes 1 to 19 have 19 pairwise different messages, none of them
the message for an unknown error, and every other code has the message for an
unknown error: 20 reasons in all. -/
theorem ppp_exit_code_reasons :
    (∀ a b, 1 ≤ a → a ≤ 19 → 1 ≤ b → b ≤ 19 → ppp_exit_code a = ppp_exit_code b → a = b) ∧
    (∀ c, 1 ≤ c → c ≤ 19 → ppp_exit_code c ≠ "Unknown error") ∧
    (∀ c, c < 1 ∨ 19 < c → ppp_exit_code c = "Unknown error") ∧
    ((List.range 20).map ppp_exit_code).Nodup ∧
    ∀ c, ppp_exit_code c ∈ (List.range 20).map ppp_exit_code := by
  have hnd := ppp_exit_code_nodup
  have hinj : ∀ a b, a < 20 → b < 20 → ppp_exit_code a = ppp_exit_code b → a = b := by
    intro a b ha hb hab
    have h1 : ((List.range 20).map ppp_exit_code)[a]? = some (ppp_exit_code a) := by
      simp [List.getElem?_map, List.getElem?_range ha]
    have h2 : ((List.range 20).map ppp_exit_code)[b]? = some (ppp_exit_code a) := by
      simp [List.getElem?_map, List.getElem?_range hb, hab]
    have ha2 : a < ((List.range 20).map ppp_exit_code).length := by simpa using ha
    have hb2 : b < ((List.range 20).map ppp_exit_code).length := by simpa using hb
    rw [List.getElem?_eq_getElem ha2] at h1
    rw [List.getElem?_eq_getElem hb2] at h2
    exact (List.Nodup.getElem_inj_iff hnd).1 ((Option.some.inj h1).trans (Option.some.inj h2).symm)
  have hunk : ∀ c, c < 1 ∨ 19 < c → ppp_exit_code c = "Unknown error" := by
    intro c hc
    rcases hc with hc | hc
    · have : c = 0 := by omega
      subst this; rfl
    · obtain ⟨d, rfl⟩ : ∃ d, c = d + 20 := ⟨c - 20, by omega⟩
      rfl
  refine ⟨fun a b _ ha _ hb => hinj a b (by omega) (by omega), ?_, hunk, hnd, ?_⟩
  · intro c hc1 hc19 hcu
    have : c = 0 := hinj c 0 (by omega) (by omega) (by rw [hcu]; rfl)
    omega
  · intro c
    by_cases hc : c < 20
    · exact List.mem_map.2 ⟨c, List.mem_range.2 hc, rfl⟩
    · rw [hunk c (by omega)]
      exact List.mem_map.2 ⟨0, by simp, rfl⟩

/-! ## Properties of the IP4Config parser -/

/-- The loop reads a dictionary whose entries are all readable to its end. -/
theorem parse_ip4_config_loop_map_some (entries : List NMUDictEntry) (st : ParseState) :
    parse_ip4_config_loop (entries.map some) st =
      some (entries.foldl (fun st entry => parse_ip4_config_entry entry st) st) := by
  induction entries generalizing st with
  | nil => rfl
  | cons entry rest ih => simp [parse_ip4_config_loop, ih]

/-- The loop succeeds only on a dictionary whose entries are all readable. -/
theorem parse_ip4_config_loop_some (l : List (Option NMUDictEntry)) (st st2 : ParseState)
    (h : parse_ip4_config_loop l st = some st2) : l = (l.filterMap id).map some := by
  induction l generalizing st with
  | nil => rfl
  | cons o rest ih =>
    cases o with
    | none => simp [parse_ip4_config_loop] at h
    | some entry =>
      simp only [parse_ip4_config_loop] at h
      have := ih _ h
      simp only [List.filterMap_cons, id, List.map_cons]
      rw [← this]

/-- What `parse_ip4_config` returns when it accepts a message. -/
theorem parse_ip4_config_accepted (new_config : NMIP4Config) (message : DBusMessage)
    (interface : Option String) (config : Option NMIP4Config)
    (h : (parse_ip4_config new_config message interface config).1 = true) :
    parse_ip4_config new_config message interface config =
      (true,
       ((dict_entries message).foldl (fun st entry => parse_ip4_config_entry entry st)
          ⟨interface, new_config⟩).interface,
       some ((dict_entries message).foldl (fun st entry => parse_ip4_config_entry entry st)
          ⟨interface, new_config⟩).config) := by
  cases hd : message.dict with
  | none =>
    simp only [parse_ip4_config, hd] at h
    split at h <;> simp at h
  | some l =>
    simp only [parse_ip4_config, dict_entries, hd, Option.getD_some] at h ⊢
    cases hl : parse_ip4_config_loop l ⟨interface, new_config⟩ with
    | none => rw [hl] at h; simp at h
    | some st2 =>
      have hmap := parse_ip4_config_loop_some l _ _ hl
      rw [hmap, parse_ip4_config_loop_map_some] at hl
      simp only [Option.some.injEq] at hl
      rw [hl]

/-- One entry, by its key: the five keys that are handled, and any other. -/
theorem parse_ip4_config_entry_cases (entry : NMUDictEntry) (st : ParseState) :
    parse_ip4_config_entry entry st =
      if entry.key = "interface" then
        (if entry.type = DBUS_TYPE_STRING ∧ entry.str_value.length ≠ 0 then
          { st with interface := some entry.str_value } else st)
      else if entry.key = "address" then
        (if entry.type = DBUS_TYPE_UINT32 then
          { st with config := nm_ip4_config_set_address st.config entry.uint32_value } else st)
      else if entry.key = "netmask" then
        (if entry.type = DBUS_TYPE_UINT32 then
          { st with config := (nm_ip4_config_set_netmask st.config
              (if entry.uint32_value ≠ 0 then entry.uint32_value else 0x00FF)) } else st)
      else if entry.key = "gateway" then
        (if entry.type = DBUS_TYPE_UINT32 then
          { st with config := nm_ip4_config_set_gateway st.config entry.uint32_value } else st)
      else if entry.key = "dns_server" then
        (if entry.type = DBUS_TYPE_ARRAY ∧ entry.array_type = DBUS_TYPE_UINT32 then
          { st with config :=
              entry.uint32array_value.foldl nm_ip4_config_add_nameserver st.config } else st)
      else st := by
  unfold parse_ip4_config_entry HANDLE_DICT_ITEM
  by_cases h1 : entry.key = "interface"
  · simp only [h1, if_true, Option.getD]
    by_cases t : entry.type = DBUS_TYPE_STRING
    · simp [t, DBUS_TYPE_STRING, DBUS_TYPE_ARRAY]
    · simp [t]
  simp only [h1, if_false, Option.getD]
  by_cases h2 : entry.key = "address"
  · simp only [h2, if_true]
    by_cases t : entry.type = DBUS_TYPE_UINT32
    · simp [t, DBUS_TYPE_UINT32, DBUS_TYPE_ARRAY]
    · simp [t]
  simp only [h2, if_false]
  by_cases h3 : entry.key = "netmask"
  · simp only [h3, if_true]
    by_cases t : entry.type = DBUS_TYPE_UINT32
    · simp [t, DBUS_TYPE_UINT32, DBUS_TYPE_ARRAY]
    · simp [t]
  simp only [h3, if_false]
  by_cases h4 : entry.key = "gateway"
  · simp only [h4, if_true]
    by_cases t : entry.type = DBUS_TYPE_UINT32
    · simp [t, DBUS_TYPE_UINT32, DBUS_TYPE_ARRAY]
    · simp [t]
  simp only [h4, if_false]
  by_cases h5 : entry.key = "dns_server"
  · simp only [h5, if_true]
    by_cases t : entry.type = DBUS_TYPE_ARRAY
    · by_cases a : entry.array_type = DBUS_TYPE_UINT32
      · simp [t, a]
      · simp [t, a]
    · simp [t]
  simp only [h5, if_false]

/-- Adding the elements of an array one by one appends the array. -/
theorem foldl_nm_ip4_config_add_nameserver (l : List Nat) (config : NMIP4Config) :
    l.foldl nm_ip4_config_add_nameserver config =
      { config with nameservers := config.nameservers ++ l } := by
  induction l generalizing config with
  | nil => simp
  | cons a l ih => simp [ih, nm_ip4_config_add_nameserver]

/-- The netmask after one entry. -/
theorem parse_ip4_config_entry_netmask (entry : NMUDictEntry) (st : ParseState) :
    (parse_ip4_config_entry entry st).config.netmask =
      if is_netmask_entry entry then
        (if entry.uint32_value ≠ 0 then entry.uint32_value else 0x00FF)
      else st.config.netmask := by
  rw [parse_ip4_config_entry_cases]
  unfold is_netmask_entry
  by_cases h1 : entry.key = "interface"
  · simp only [h1, if_true]; split_ifs <;> simp_all
  by_cases h2 : entry.key = "address"
  · simp only [h2, if_true]; split_ifs <;> simp_all [nm_ip4_config_set_address]
  by_cases h3 : entry.key = "netmask"
  · simp only [h3, if_true]; split_ifs <;> simp_all [nm_ip4_config_set_netmask]
  by_cases h4 : entry.key = "gateway"
  · simp only [h4, if_true]; split_ifs <;> simp_all [nm_ip4_config_set_gateway]
  by_cases h5 : entry.key = "dns_server"
  · simp only [h5, if_true]
    split_ifs <;> simp_all [foldl_nm_ip4_config_add_nameserver]
  simp [h1, h2, h3, h4, h5]

/-- The nameservers after one entry. -/
theorem parse_ip4_config_entry_nameservers (entry : NMUDictEntry) (st : ParseState) :
    (parse_ip4_config_entry entry st).config.nameservers =
      st.config.nameservers ++
        (if is_dns_server_entry entry then entry.uint32array_value else []) := by
  rw [parse_ip4_config_entry_cases]
  unfold is_dns_server_entry
  by_cases h1 : entry.key = "interface"
  · simp only [h1, if_true]; split_ifs <;> simp_all
  by_cases h2 : entry.key = "address"
  · simp only [h2, if_true]; split_ifs <;> simp_all [nm_ip4_config_set_address]
  by_cases h3 : entry.key = "netmask"
  · simp only [h3, if_true]; split_ifs <;> simp_all [nm_ip4_config_set_netmask]
  by_cases h4 : entry.key = "gateway"
  · simp only [h4, if_true]; split_ifs <;> simp_all [nm_ip4_config_set_gateway]
  by_cases h5 : entry.key = "dns_server"
  · simp only [h5, if_true]
    split_ifs <;> simp_all [foldl_nm_ip4_config_add_nameserver]
  simp [h1, h2, h3, h4, h5]

/-- The interface name after one entry. -/
theorem parse_ip4_config_entry_interface (entry : NMUDictEntry) (st : ParseState) :
    (parse_ip4_config_entry entry st).interface =
      if is_interface_entry entry then some entry.str_value else st.interface := by
  rw [parse_ip4_config_entry_cases]
  unfold is_interface_entry
  by_cases h1 : entry.key = "interface"
  · simp only [h1, if_true]; split_ifs <;> simp_all
  by_cases h2 : entry.key = "address"
  · simp only [h2, if_true]; split_ifs <;> simp_all
  by_cases h3 : entry.key = "netmask"
  · simp only [h3, if_true]; split_ifs <;> simp_all
  by_cases h4 : entry.key = "gateway"
  · simp only [h4, if_true]; split_ifs <;> simp_all
  by_cases h5 : entry.key = "dns_server"
  · simp only [h5, if_true]; split_ifs <;> simp_all
  simp [h1, h2, h3, h4, h5]

/-- The netmask after all entries: the fallback or the value of the last
well-typed netmask entry, the netmask before the loop when there is none. -/
theorem foldl_parse_ip4_config_entry_netmask (entries : List NMUDictEntry) (st : ParseState) :
    (entries.foldl (fun st entry => parse_ip4_config_entry entry st) st).config.netmask =
      match supplied_netmask entries with
      | none => st.config.netmask
      | some value => if value ≠ 0 then value else 0x00FF := by
  induction entries using List.reverseRecOn with
  | nil => rfl
  | append_singleton l entry ih =>
    rw [List.foldl_append, List.foldl_cons, List.foldl_nil, parse_ip4_config_entry_netmask, ih]
    unfold supplied_netmask
    rw [List.filter_append]
    by_cases hn : is_netmask_entry entry
    · simp [hn, List.filter_cons]
    · simp [hn, List.filter_cons]

/-- The nameservers after all entries. -/
theorem foldl_parse_ip4_config_entry_nameservers (entries : List NMUDictEntry)
    (st : ParseState) :
    (entries.foldl (fun st entry => parse_ip4_config_entry entry st) st).config.nameservers =
      st.config.nameservers ++ supplied_nameservers entries := by
  induction entries using List.reverseRecOn with
  | nil => simp [supplied_nameservers]
  | append_singleton l entry ih =>
    rw [List.foldl_append, List.foldl_cons, List.foldl_nil, parse_ip4_config_entry_nameservers,
      ih]
    unfold supplied_nameservers
    rw [List.filter_append]
    by_cases hn : is_dns_server_entry entry
    · simp [hn, List.filter_cons]
    · simp [hn, List.filter_cons]

/-- The interface name after all entries. -/
theorem foldl_parse_ip4_config_entry_interface (entries : List NMUDictEntry)
    (st : ParseState) :
    (entries.foldl (fun st entry => parse_ip4_config_entry entry st) st).interface =
      match reported_interface entries with
      | none => st.interface
      | some name => some name := by
  induction entries using List.reverseRecOn with
  | nil => rfl
  | append_singleton l entry ih =>
    rw [List.foldl_append, List.foldl_cons, List.foldl_nil, parse_ip4_config_entry_interface, ih]
    unfold reported_interface
    rw [List.filter_append]
    by_cases hn : is_interface_entry entry
    · simp [hn, List.filter_cons]
    · simp [hn, List.filter_cons]

/-- C4 as stated fails: a dictionary with address and gateway and no netmask
entry is accepted, and the netmask of the resulting configuration is the 0 of
the new configuration, not the fallback mask 0x00FF. -/
theorem parse_ip4_config_no_netmask_entry_no_fallback :
    (dict_entries message_no_netmask).all (fun entry => entry.key != "netmask") = true ∧
    parse_ip4_config config_zero message_no_netmask none none =
      (true, none, some ⟨0x0100007F, 0, 0x0200007F, []⟩) ∧
    (⟨0x0100007F, 0, 0x0200007F, []⟩ : NMIP4Config).netmask ≠ 0x00FF := by
  refine ⟨by decide, by decide, by decide⟩

/-- C4, amended: in the configuration of an accepted dictionary the netmask
is determined by the last well-typed netmask entry: the fallback mask 0x00FF
when its value is 0, its value otherwise; when the dictionary has no
well-typed netmask entry the netmask is the one of the new configuration. -/
theorem parse_ip4_config_netmask (new_config : NMIP4Config) (message : DBusMessage)
    (interface : Option String) (config : Option NMIP4Config)
    (h : (parse_ip4_config new_config message interface config).1 = true) :
    ∃ result, (parse_ip4_config new_config message interface config).2.2 = some result ∧
      result.netmask =
        match supplied_netmask (dict_entries message) with
        | none => new_config.netmask
        | some value => if value ≠ 0 then value else 0x00FF := by
  rw [parse_ip4_config_accepted _ _ _ _ h]
  exact ⟨_, rfl, foldl_parse_ip4_config_entry_netmask _ _⟩

/-- Witness of `parse_ip4_config_netmask`: the signal of `message_example`,
whose netmask entry is 0. -/
theorem parse_ip4_config_netmask_witness :
    (parse_ip4_config config_zero message_example none none).1 = true ∧
    ∃ result, (parse_ip4_config config_zero message_example none none).2.2 = some result ∧
      result.netmask =
        match supplied_netmask (dict_entries message_example) with
        | none => config_zero.netmask
        | some value => if value ≠ 0 then value else 0x00FF :=
  ⟨by decide, parse_ip4_config_netmask config_zero message_example none none (by decide)⟩

/-- C5: when a new configuration holds no nameserver, the nameservers of the
configuration of an accepted dictionary are the elements of all well-typed
dns_server entries, in dictionary order and element order. -/
theorem parse_ip4_config_nameservers (new_config : NMIP4Config) (message : DBusMessage)
    (interface : Option String) (config : Option NMIP4Config)
    (hnew : new_config.nameservers = [])
    (h : (parse_ip4_config new_config message interface config).1 = true) :
    ∃ result, (parse_ip4_config new_config message interface config).2.2 = some result ∧
      result.nameservers = supplied_nameservers (dict_entries message) := by
  rw [parse_ip4_config_accepted _ _ _ _ h]
  refine ⟨_, rfl, ?_⟩
  rw [foldl_parse_ip4_config_entry_nameservers]
  simp [hnew]

/-- Witness of `parse_ip4_config_nameservers`: the signal of
`message_example` yields the two nameservers in the given order. -/
theorem parse_ip4_config_nameservers_witness :
    config_zero.nameservers = [] ∧
    (parse_ip4_config config_zero message_example none none).1 = true ∧
    supplied_nameservers (dict_entries message_example) = [0x08080808, 0x04040404] ∧
    ∃ result, (parse_ip4_config config_zero message_example none none).2.2 = some result ∧
      result.nameservers = supplied_nameservers (dict_entries message_example) :=
  ⟨rfl, by decide, by decide,
    parse_ip4_config_nameservers config_zero message_example none none rfl (by decide)⟩

/-- C6 as stated fails: for an accepted IP4Config signal without an interface
entry the IP4_CONFIG signal is emitted with no interface name. -/
theorem nm_ppp_manager_dbus_signal_handler_no_interface :
    nm_ppp_manager_dbus_signal_handler "org.freedesktop.NetworkManager.PPP" config_zero
      message_no_netmask =
      (true, [.IP4_CONFIG none (some ⟨0x0100007F, 0, 0x0200007F, []⟩)]) := by
  decide

/-- C6, amended: the IP4_CONFIG signal emitted for an accepted IP4Config
signal carries the name of the last well-typed, non-empty interface entry of
the dictionary, and no name when there is no such entry. -/
theorem nm_ppp_manager_dbus_signal_handler_interface (NM_DBUS_INTERFACE_PPP : String)
    (new_config : NMIP4Config) (message : DBusMessage)
    (hsig : dbus_message_is_signal message NM_DBUS_INTERFACE_PPP "IP4Config" = true)
    (h : (parse_ip4_config new_config message none none).1 = true) :
    nm_ppp_manager_dbus_signal_handler NM_DBUS_INTERFACE_PPP new_config message =
      (true, [.IP4_CONFIG (reported_interface (dict_entries message))
                (parse_ip4_config new_config message none none).2.2]) := by
  have hstatus : dbus_message_is_signal message NM_DBUS_INTERFACE_PPP "Status" = false := by
    simp only [dbus_message_is_signal, Bool.and_eq_true, beq_iff_eq] at hsig
    simp [dbus_message_is_signal, hsig.2]
  have hacc := parse_ip4_config_accepted _ _ _ _ h
  simp only [nm_ppp_manager_dbus_signal_handler, hstatus, hsig, if_true, h]
  rw [hacc, foldl_parse_ip4_config_entry_interface]
  cases reported_interface (dict_entries message) <;> simp

/-- Witness of `nm_ppp_manager_dbus_signal_handler_interface`: a signal whose
dictionary names the interface ppp0. -/
theorem nm_ppp_manager_dbus_signal_handler_interface_witness :
    dbus_message_is_signal message_ppp0 "org.freedesktop.NetworkManager.PPP" "IP4Config" = true ∧
    (parse_ip4_config config_zero message_ppp0 none none).1 = true ∧
    nm_ppp_manager_dbus_signal_handler "org.freedesktop.NetworkManager.PPP" config_zero
      message_ppp0 =
      (true, [.IP4_CONFIG (some "ppp0") (some ⟨0x0100007F, 0, 0, []⟩)]) :=
  ⟨by decide, by decide,
    nm_ppp_manager_dbus_signal_handler_interface "org.freedesktop.NetworkManager.PPP"
      config_zero message_ppp0 (by decide) (by decide)⟩

/-! ## Properties of the watchdog and of the bus name -/

/-- A string has length 0 exactly when it is the empty string. -/
theorem string_length_eq_zero (s : String) : s.length = 0 ↔ s = "" := by
  rw [String.ext_iff]
  show s.data.length = 0 ↔ s.data = []
  exact List.length_eq_zero

/-- A start that returns TRUE made its calls in this order and left these
private data. -/
theorem nm_ppp_manager_start_true (env : Env) (priv : NMPPPManagerPrivate) (device : String)
    (setting : NMSettingPPP)
    (h : (nm_ppp_manager_start env priv device setting).ret = true) :
    (∃ argv, (nm_ppp_manager_start env priv device setting).calls =
      [.g_spawn_async argv, .g_child_watch_source_new env.pid_local,
        .g_timeout_add NM_PPP_WAIT_PPPD, .nm_dbus_manager_get,
        .g_signal_connect env.nm_dbus_manager_get "name-owner-changed"]) ∧
    ∃ pid, (nm_ppp_manager_start env priv device setting).priv =
      ⟨pid, some env.nm_dbus_manager_get, priv.signal_handler, env.g_timeout_add,
        env.g_signal_connect⟩ := by
  cases hc : create_pppd_cmd_line env.g_file_test env.LIBDIR setting device with
  | error e0 => simp [nm_ppp_manager_start, hc] at h
  | ok cmd0 =>
    cases hs : env.g_spawn_async (cmd0.array ++ ["defaultroute"]) with
    | error e0 => simp [nm_ppp_manager_start, hc, hs, nm_cmd_line_add_string] at h
    | ok pid0 =>
      simp [nm_ppp_manager_start, hc, hs, nm_cmd_line_add_string, start_dbus_watcher]

/-- C11 as stated fails: after a successful start, the watchdog firing stops
the manager and emits no signal at all, so no failure is notified to the
observers of the manager. -/
theorem pppd_timed_out_emits_nothing :
    (nm_ppp_manager_start env_spawn_ok nm_ppp_manager_new "ttyS0" setting_example).ret = true ∧
    pppd_timed_out
        (nm_ppp_manager_start env_spawn_ok nm_ppp_manager_new "ttyS0" setting_example).priv =
      ⟨false, ⟨0, none, 0, 0, 9⟩,
        [.g_source_remove 5, .g_signal_handler_disconnect ⟨1⟩ 9, .g_object_unref ⟨1⟩,
          .kill 4242 SIGTERM],
        ["Looks like pppd didn't initialize our dbus module"], []⟩ ∧
    ¬ ∃ e, e ∈ (pppd_timed_out
        (nm_ppp_manager_start env_spawn_ok nm_ppp_manager_new "ttyS0" setting_example).priv).emitted := by
  refine ⟨rfl, rfl, ?_⟩
  rintro ⟨e, he⟩
  simp [pppd_timed_out] at he

/-- C11, amended: a successful start adds the watchdog timeout of
`NM_PPP_WAIT_PPPD` milliseconds and stores its id; the helper acquiring its
bus name clears the stored id; and `pppd_timed_out`, in every state, leaves
the manager in the state produced by `nm_ppp_manager_stop` (SIGTERM to a
non-zero pid, every handle cleared), returns FALSE so that the timer is not
rescheduled, logs a warning and emits no signal. -/
theorem pppd_timed_out_force_stops (env : Env) (priv : NMPPPManagerPrivate) (device : String)
    (setting : NMSettingPPP)
    (h : (nm_ppp_manager_start env priv device setting).ret = true) :
    Call.g_timeout_add NM_PPP_WAIT_PPPD ∈ (nm_ppp_manager_start env priv device setting).calls ∧
    (nm_ppp_manager_start env priv device setting).priv.ppp_timeout_handler = env.g_timeout_add ∧
    (∀ (service iface : String) (registered : Nat) (s : NMPPPManagerPrivate) (new : String),
      new.length > 0 →
      (name_owner_changed service iface registered s service none
        (some new)).1.ppp_timeout_handler = 0) ∧
    ∀ s : NMPPPManagerPrivate,
      (pppd_timed_out s).ret = false ∧
      ((pppd_timed_out s).priv, (pppd_timed_out s).calls) = nm_ppp_manager_stop s ∧
      (pppd_timed_out s).priv = ⟨0, none, 0, 0, s.name_owner_changed_handler⟩ ∧
      (pppd_timed_out s).calls.filter Call.is_kill =
        (if s.pid ≠ 0 then [.kill s.pid SIGTERM] else []) ∧
      (pppd_timed_out s).warnings = ["Looks like pppd didn't initialize our dbus module"] ∧
      (pppd_timed_out s).emitted = [] := by
  obtain ⟨⟨argv, hcalls⟩, ⟨pid, hpriv⟩⟩ := nm_ppp_manager_start_true env priv device setting h
  refine ⟨?_, ?_, ?_, ?_⟩
  · rw [hcalls]; simp
  · rw [hpriv]
  · intro service iface registered s new hnew
    simp only [name_owner_changed, owner_good, hnew]
    by_cases ht : s.ppp_timeout_handler = 0 <;> simp [ht]
  · intro s
    refine ⟨rfl, rfl, nm_ppp_manager_stop_priv s, nm_ppp_manager_stop_kill s, rfl, rfl⟩

/-- Witness of `pppd_timed_out_force_stops`: a new manager started with
/usr/sbin/pppd present and a spawner that succeeds. -/
theorem pppd_timed_out_force_stops_witness :
    (nm_ppp_manager_start env_spawn_ok nm_ppp_manager_new "ttyS0" setting_example).ret = true ∧
    (pppd_timed_out
      (nm_ppp_manager_start env_spawn_ok nm_ppp_manager_new "ttyS0" setting_example).priv).priv =
      ⟨0, none, 0, 0, 9⟩ :=
  ⟨rfl, ((pppd_timed_out_force_stops env_spawn_ok nm_ppp_manager_new "ttyS0" setting_example
    rfl).2.2.2 _).2.2.1⟩

/-- The calls of `nm_ppp_manager_stop` for a manager that holds the D-Bus
manager end with the release of that reference. -/
theorem nm_ppp_manager_stop_clears_dbus_manager (s : NMPPPManagerPrivate) :
    (nm_ppp_manager_stop s).1.dbus_manager = none := by
  rw [nm_ppp_manager_stop_priv]

/-- C12: for an event delivered to a manager that holds the D-Bus manager
(an active session), `name_owner_changed` does what `nm_ppp_manager_stop`
does if and only if the name is the bus name of the helper, the old owner is
a non-empty string and the new owner is NULL or empty; an event for another
name changes nothing and makes no call. -/
theorem name_owner_changed_stop_iff (NM_DBUS_SERVICE_PPP NM_DBUS_INTERFACE_PPP : String)
    (registered : Nat) (priv : NMPPPManagerPrivate) (name : String) (old new : Option String)
    (hactive : priv.dbus_manager ≠ none) :
    (name_owner_changed NM_DBUS_SERVICE_PPP NM_DBUS_INTERFACE_PPP registered priv name old new =
        nm_ppp_manager_stop priv ↔
      (name = NM_DBUS_SERVICE_PPP ∧ (∃ o, old = some o ∧ o.length > 0) ∧
        (new = none ∨ new = some ""))) ∧
    (name ≠ NM_DBUS_SERVICE_PPP →
      name_owner_changed NM_DBUS_SERVICE_PPP NM_DBUS_INTERFACE_PPP registered priv name old new =
        (priv, [])) := by
  have hstop : (nm_ppp_manager_stop priv).1.dbus_manager = none :=
    nm_ppp_manager_stop_clears_dbus_manager priv
  have hold : owner_good old = true ↔ ∃ o, old = some o ∧ o.length > 0 := by
    cases old <;> simp [owner_good]
  have hnew : owner_good new = false ↔ (new = none ∨ new = some "") := by
    cases new with
    | none => simp [owner_good]
    | some s =>
      simp only [owner_good, decide_eq_false_iff_not, not_lt, Nat.le_zero, reduceCtorEq,
        Option.some.injEq, false_or]
      exact string_length_eq_zero s
  refine ⟨?_, ?_⟩
  · rw [← hold, ← hnew]
    unfold name_owner_changed
    by_cases hn : name = NM_DBUS_SERVICE_PPP
    · have hne : ∀ st : NMPPPManagerPrivate × List Call, st.1.dbus_manager = priv.dbus_manager →
          st ≠ nm_ppp_manager_stop priv := by
        intro st hst heq
        rw [heq, hstop] at hst
        exact hactive hst.symm
      cases ho : owner_good old <;> cases hw : owner_good new
      · simpa [hn] using hne (priv, []) rfl
      · simp only [hn, ne_eq, not_true_eq_false, if_false, Bool.not_false, Bool.and_self, if_true,
          true_and, Bool.true_eq_false, and_false, iff_false]
        apply hne
        by_cases ht : priv.ppp_timeout_handler = 0 <;> simp [ht]
      · simp [hn]
      · simpa [hn] using hne (priv, []) rfl
    · simp only [hn, ne_eq, not_false_eq_true, if_true, false_and, iff_false]
      intro heq
      rw [← heq] at hstop
      exact hactive hstop
  · intro hn
    simp [name_owner_changed, hn]

/-- Witness of `name_owner_changed_stop_iff`: the helper, owned by :1.42,
loses its bus name while the manager started before holds the D-Bus manager. -/
theorem name_owner_changed_stop_iff_witness :
    (⟨4242, some ⟨1⟩, 0, 5, 9⟩ : NMPPPManagerPrivate).dbus_manager ≠ none ∧
    name_owner_changed "org.freedesktop.NetworkManager.PPP" "org.freedesktop.NetworkManager.PPP" 3
        ⟨4242, some ⟨1⟩, 0, 5, 9⟩ "org.freedesktop.NetworkManager.PPP" (some ":1.42") none =
      nm_ppp_manager_stop ⟨4242, some ⟨1⟩, 0, 5, 9⟩ :=
  ⟨by decide,
    (name_owner_changed_stop_iff "org.freedesktop.NetworkManager.PPP"
      "org.freedesktop.NetworkManager.PPP" 3 ⟨4242, some ⟨1⟩, 0, 5, 9⟩
      "org.freedesktop.NetworkManager.PPP" (some ":1.42") none (by decide)).1.2
      ⟨rfl, ⟨":1.42", rfl, by decide⟩, Or.inl rfl⟩⟩

/-! ## Properties of the pending entries of NMRemoteSettings -/

/-- The entry that is found is in the list and is for the path asked for. -/
theorem _add_connection_info_find_some (priv : NMRemoteSettingsPrivate) (path : String)
    (info : AddConnectionInfo) (h : _add_connection_info_find priv path = some info) :
    info ∈ priv.add_lst_head ∧ info.connection_path = path := by
  unfold _add_connection_info_find at h
  exact ⟨List.mem_of_find?_eq_some h, by simpa using List.find?_some h⟩

/-- Erasing an element that a filter rejects does not change what the filter
keeps. -/
theorem filter_erase_of_false {α : Type} [DecidableEq α] (p : α → Bool) (a : α)
    (h : p a = false) (l : List α) : (l.erase a).filter p = l.filter p := by
  induction l with
  | nil => rfl
  | cons b l ih =>
    by_cases hb : b = a
    · subst hb
      simp [h]
    · rw [List.erase_cons_tail (by simpa using hb)]
      simp [List.filter_cons, ih]

/-- C18: when an entry is pending for the failed path, `object_creation_failed`
completes the task of the first such entry with the error
`NM_CLIENT_ERROR_OBJECT_CREATION_FAILED` and removes it from the list; the
entries for other paths stay as they are, in their order; and when no entry is
pending for the path, nothing changes and no task is completed. -/
theorem object_creation_failed_completes (priv : NMRemoteSettingsPrivate)
    (failed_path : String) :
    (∀ info, _add_connection_info_find priv failed_path = some info →
      info ∈ priv.add_lst_head ∧ info.connection_path = failed_path ∧
      object_creation_failed priv failed_path =
        ({ priv with add_lst_head := priv.add_lst_head.erase info },
         [⟨info.task, .error NM_CLIENT_ERROR_OBJECT_CREATION_FAILED⟩]) ∧
      (priv.add_lst_head.erase info).filter (fun i => i.connection_path != failed_path) =
        priv.add_lst_head.filter (fun i => i.connection_path != failed_path)) ∧
    (_add_connection_info_find priv failed_path = none →
      (∀ i ∈ priv.add_lst_head, i.connection_path ≠ failed_path) ∧
      object_creation_failed priv failed_path = (priv, [])) := by
  refine ⟨fun info hinfo => ?_, fun hnone => ?_⟩
  · obtain ⟨hmem, hpath⟩ := _add_connection_info_find_some _ _ _ hinfo
    refine ⟨hmem, hpath, ?_, ?_⟩
    · simp [object_creation_failed, hinfo, _add_connection_info_complete]
    · exact filter_erase_of_false _ info (by simp [hpath]) _
  · refine ⟨?_, by simp [object_creation_failed, hnone]⟩
    intro i hi
    unfold _add_connection_info_find at hnone
    have := List.find?_eq_none.1 hnone i hi
    simpa using this

/-! ## Properties of the visibility of connections -/

/-- The class handler of connection-added makes a connection of
`all_connections` known, when the connection was not in
`visible_connections` before. -/
theorem connection_added_known (self : RemoteSettings) (remote : Nat)
    (hall : remote ∈ self.priv.all_connections)
    (hnot : remote ∉ self.priv.visible_connections) :
    known (connection_added self remote).settings remote := by
  have hcount : self.priv.visible_connections.count remote = 0 := List.count_eq_zero.2 hnot
  unfold known connection_added
  by_cases hh : remote ∈ self.visible_changed_handlers <;>
    by_cases hv : (self.objects remote).visible <;>
    simp only [hh, hv, nm_remote_connection_get_visible, if_true, if_false] <;>
    split <;> simp [hall, hh, hv, hcount, _add_connection_info_complete]

/-- C13: the class handler of connection-added makes a connection of
`all_connections` known.  For a connection known to the settings object, a
reply that makes it visible delivers one connection-added and nothing else, a
reply that makes it invisible delivers one connection-removed and nothing
else, a reply that leaves its visibility as it is delivers nothing;
afterwards the connection is known as before and is in `visible_connections`
if and only if it is visible. -/
theorem settings_updated_one_signal
    (replace : List NMSetting → GVariant → List NMSetting)
    (self : RemoteSettings) (remote : Nat) (reply : Option GVariant)
    (h : known self remote) :
    (∀ before : RemoteSettings, remote ∈ before.priv.all_connections →
      remote ∉ before.priv.visible_connections →
      known (connection_added before remote).settings remote) ∧
    ((self.objects remote).visible = false → reply ≠ none →
      (settings_updated replace self remote reply).delivered = [.CONNECTION_ADDED remote]) ∧
    ((self.objects remote).visible = true → reply = none →
      (settings_updated replace self remote reply).delivered = [.CONNECTION_REMOVED remote]) ∧
    (((self.objects remote).visible = true ↔ reply ≠ none) →
      (settings_updated replace self remote reply).delivered = []) ∧
    ((settings_updated replace self remote reply).settings.objects remote).visible =
      reply.isSome ∧
    known (settings_updated replace self remote reply).settings remote ∧
    (remote ∈ (settings_updated replace self remote reply).settings.priv.visible_connections ↔
      ((settings_updated replace self remote reply).settings.objects remote).visible = true) := by
  refine ⟨fun before h1 h2 => connection_added_known before remote h1 h2, ?_⟩
  obtain ⟨hall, hh, hcount⟩ := h
  cases reply with
  | none =>
    cases hv : (self.objects remote).visible with
    | false =>
      have hc0 : self.priv.visible_connections.count remote = 0 := by simpa [hv] using hcount
      have hnot : remote ∉ self.priv.visible_connections := List.count_eq_zero.1 hc0
      simp [settings_updated, updated_get_settings_cb, nm_connection_clear_settings, hv, known,
        hall, hh, hnot, hc0]
    | true =>
      have hc1 : self.priv.visible_connections.count remote = 1 := by simpa [hv] using hcount
      have hmem : remote ∈ self.priv.visible_connections :=
        List.count_pos_iff.1 (by omega)
      have hcount2 : (self.priv.visible_connections.erase remote).count remote = 0 := by
        rw [List.count_erase_self, hc1]
      have hnot2 : remote ∉ self.priv.visible_connections.erase remote :=
        List.count_eq_zero.1 hcount2
      simp [settings_updated, updated_get_settings_cb, nm_connection_clear_settings, hv, known,
        hall, hh, hmem, connection_visible_changed, nm_remote_connection_get_visible,
        g_signal_emit, connection_removed, hnot2, hc1]
  | some new_settings =>
    cases hv : (self.objects remote).visible with
    | false =>
      have hc0 : self.priv.visible_connections.count remote = 0 := by simpa [hv] using hcount
      have hnot : remote ∉ self.priv.visible_connections := List.count_eq_zero.1 hc0
      simp only [settings_updated, updated_get_settings_cb, replace_settings, hv,
        connection_visible_changed, nm_remote_connection_get_visible, g_signal_emit,
        connection_added, known]
      simp [hh, hall, hc0]
      split <;> simp [hall, hh, hc0, _add_connection_info_complete]
    | true =>
      have hc1 : self.priv.visible_connections.count remote = 1 := by simpa [hv] using hcount
      have hmem : remote ∈ self.priv.visible_connections :=
        List.count_pos_iff.1 (by omega)
      simp [settings_updated, updated_get_settings_cb, replace_settings, hv, known,
        hall, hh, hmem, hc1]

/-- Witness of `settings_updated_one_signal`: the connection of
`settings_one_invisible` becomes visible. -/
theorem settings_updated_one_signal_witness :
    known settings_one_invisible 1 ∧
    (settings_updated replace_example settings_one_invisible 1 (some ⟨"s"⟩)).delivered =
      [.CONNECTION_ADDED 1] :=
  have hk : known settings_one_invisible 1 := ⟨by decide, by decide, by decide⟩
  ⟨hk, (settings_updated_one_signal replace_example settings_one_invisible 1 (some ⟨"s"⟩)
    hk).2.1 rfl (by simp)⟩

/-- The class handler of connection-removed leaves `all_connections`, removes
its connection once from `visible_connections` and lets the signal through
exactly when the connection was there. -/
theorem connection_removed_arrays (self : RemoteSettings) (remote : Nat) :
    (connection_removed self remote).settings.priv.all_connections = self.priv.all_connections ∧
    (connection_removed self remote).settings.priv.visible_connections =
      self.priv.visible_connections.erase remote ∧
    (connection_removed self remote).stopped = !decide (remote ∈ self.priv.visible_connections) := by
  unfold connection_removed
  by_cases h1 : remote ∈ self.priv.all_connections <;>
    by_cases h2 : remote ∈ self.priv.visible_connections <;>
    simp [h1, h2, List.erase_of_not_mem]

/-- After a reply the connection is visible exactly when the reply held
settings, and an invisible connection has no settings. -/
theorem updated_get_settings_cb_invisible
    (replace : List NMSetting → GVariant → List NMSetting)
    (self : NMRemoteConnection) (reply : Option GVariant) :
    (updated_get_settings_cb replace self reply).1.visible = reply.isSome ∧
    ((updated_get_settings_cb replace self reply).1.visible = false →
      (updated_get_settings_cb replace self reply).1.settings = []) := by
  cases reply <;> cases hv : self.visible <;>
    simp [updated_get_settings_cb, nm_connection_clear_settings, replace_settings, hv]

/-- C19: after `init_sync` or `init_get_settings_cb` on a constructed object
and any sequence of replies handled by `updated_get_settings_cb`, a
connection whose visible flag is FALSE has no settings. -/
theorem nm_remote_connection_invisible_no_settings
    (replace : List NMSetting → GVariant → List NMSetting)
    (path : Option String) (reply : Option GVariant) (parent_init : Bool)
    (replies : List (Option GVariant)) (self : NMRemoteConnection)
    (hinit : self = (init_sync replace (constructed path) reply parent_init).1 ∨
      self = init_get_settings_cb replace (constructed path) reply)
    (hvisible : nm_remote_connection_get_visible (updated_replies replace self replies) = false) :
    (updated_replies replace self replies).settings = [] := by
  have h0 : self.visible = false → self.settings = [] := by
    rcases hinit with h | h <;> subst h <;> cases reply <;> cases parent_init <;>
      simp [init_sync, init_get_settings_cb, constructed, replace_settings]
  have hall : ∀ (replies : List (Option GVariant)) (c : NMRemoteConnection),
      (c.visible = false → c.settings = []) →
      (updated_replies replace c replies).visible = false →
      (updated_replies replace c replies).settings = [] := by
    intro replies
    induction replies with
    | nil => intro c hc hv; exact hc hv
    | cons r rest ih =>
      intro c hc hv
      exact ih _ (updated_get_settings_cb_invisible replace c r).2 hv
  exact hall replies self h0 hvisible

/-- Witness of `nm_remote_connection_invisible_no_settings`: a connection is
initialized with settings, updated with settings, and then a reply fails. -/
theorem nm_remote_connection_invisible_no_settings_witness :
    nm_remote_connection_get_visible
      (updated_replies replace_example
        (init_sync replace_example (constructed (some path_1)) (some ⟨"a"⟩) true).1
        [some ⟨"b"⟩, none]) = false ∧
    (init_sync replace_example (constructed (some path_1)) (some ⟨"a"⟩) true).1.settings =
      [⟨"a"⟩] ∧
    (updated_replies replace_example
      (init_sync replace_example (constructed (some path_1)) (some ⟨"a"⟩) true).1
      [some ⟨"b"⟩, none]).settings = [] :=
  ⟨by decide, by decide,
    nm_remote_connection_invisible_no_settings replace_example (some path_1) (some ⟨"a"⟩) true
      [some ⟨"b"⟩, none] _ (Or.inl rfl) (by decide)⟩

/-! ## Properties of the activation request -/

/-- One call of `nm_act_request_set_stage` is no regression. -/
theorem nm_act_request_set_stage_no_regression (req : NMActRequest) (stage : NMActStage) :
    no_regression req.stage (nm_act_request_set_stage req stage).stage := by
  obtain ⟨cur⟩ := req
  cases cur <;> cases stage <;> simp [nm_act_request_set_stage, no_regression,
    NMActStage.terminal, NMActStage.value]

/-- No regression followed by no regression is no regression. -/
theorem no_regression_trans (a b c : NMActStage) (hab : no_regression a b)
    (hbc : no_regression b c) : no_regression a c := by
  rcases hbc with h | h | ⟨hb, hc, hle⟩
  · exact Or.inl h
  · exact Or.inr (Or.inl h)
  · rcases hab with h | h | ⟨ha, _, hle2⟩
    · subst h; simp [NMActStage.terminal] at hb
    · subst h; simp [NMActStage.terminal] at hb
    · exact Or.inr (Or.inr ⟨ha, hc, Nat.le_trans hle2 hle⟩)

/-- Every stage observed after some calls is no regression from the stage
before them. -/
theorem observed_stages_no_regression (stages : List NMActStage) (req : NMActRequest) :
    ∀ b ∈ (observed_stages req stages).tail, no_regression req.stage b := by
  induction stages generalizing req with
  | nil => intro b hb; simp [observed_stages] at hb
  | cons stage rest ih =>
    intro b hb
    have hstep := nm_act_request_set_stage_no_regression req stage
    cases rest with
    | nil =>
      simp only [observed_stages, List.tail_cons, List.mem_singleton] at hb
      subst hb
      exact hstep
    | cons stage2 rest2 =>
      simp only [observed_stages, List.tail_cons, List.mem_cons] at hb
      rcases hb with hb | hb
      · subst hb
        exact hstep
      · apply no_regression_trans _ _ _ hstep
        apply ih
        simp only [observed_stages, List.tail_cons]
        exact hb

/-- C20: for every request and every sequence of calls of
`nm_act_request_set_stage`, every stage observed later is FAILED or
CANCELLED or, with neither stage terminal, not before the stage observed
earlier in the order of `NMActStage`; no observed stage that is not terminal
comes after a later one in that order. -/
theorem nm_act_request_stage_forward (req : NMActRequest) (stages : List NMActStage) :
    (observed_stages req stages).Pairwise no_regression ∧
    (observed_stages req stages).Pairwise
      (fun a b => ¬ (b.terminal = false ∧ b.value < a.value)) := by
  have hp : (observed_stages req stages).Pairwise no_regression := by
    induction stages generalizing req with
    | nil => simp [observed_stages]
    | cons stage rest ih =>
      simp only [observed_stages, List.pairwise_cons]
      refine ⟨?_, ih _⟩
      intro b hb
      have := observed_stages_no_regression (stage :: rest) req b
      simp only [observed_stages, List.tail_cons] at this
      exact this hb
  refine ⟨hp, hp.imp ?_⟩
  intro a b hab ⟨hb, hlt⟩
  rcases hab with h | h | ⟨_, _, hle⟩
  · subst h; simp [NMActStage.terminal] at hb
  · subst h; simp [NMActStage.terminal] at hb
  · omega
/-! ## Properties of the class handler of connection-removed -/

/-- C26: for every emission of connection-removed the subscribers receive
the signal exactly when the connection was in `visible_connections`;
afterwards its first occurrence is gone from `visible_connections`, the
elements before and after it are those of before in the same order, nothing
changes when it was not there, and `all_connections` is unchanged. -/
theorem connection_removed_propagates_iff (self : RemoteSettings) (remote : Nat) :
    (g_signal_emit self (.CONNECTION_REMOVED remote)).delivered =
      (if remote ∈ self.priv.visible_connections then [.CONNECTION_REMOVED remote] else []) ∧
    ((connection_removed self remote).stopped = false ↔
      remote ∈ self.priv.visible_connections) ∧
    (connection_removed self remote).settings.priv.all_connections =
      self.priv.all_connections ∧
    (g_signal_emit self (.CONNECTION_REMOVED remote)).settings =
      (connection_removed self remote).settings ∧
    (remote ∈ self.priv.visible_connections →
      ∃ front back, self.priv.visible_connections = front ++ remote :: back ∧
        remote ∉ front ∧
        (connection_removed self remote).settings.priv.visible_connections = front ++ back) ∧
    (remote ∉ self.priv.visible_connections →
      (connection_removed self remote).settings.priv.visible_connections =
        self.priv.visible_connections) := by
  obtain ⟨h1, h2, h3⟩ := connection_removed_arrays self remote
  refine ⟨?_, ?_, h1, rfl, ?_, ?_⟩
  · by_cases h : remote ∈ self.priv.visible_connections <;> simp [g_signal_emit, h3, h]
  · rw [h3]; simp
  · intro h
    obtain ⟨front, back, hn, hl, he⟩ := List.exists_erase_eq h
    exact ⟨front, back, hl, hn, by rw [h2, he]⟩
  · intro h
    rw [h2, List.erase_of_not_mem h]

/-! ## Properties of badly typed, unknown and repeated entries -/

/-- The address after one entry. -/
theorem parse_ip4_config_entry_address (entry : NMUDictEntry) (st : ParseState) :
    (parse_ip4_config_entry entry st).config.address =
      if is_address_entry entry then entry.uint32_value else st.config.address := by
  rw [parse_ip4_config_entry_cases]
  unfold is_address_entry
  by_cases h1 : entry.key = "interface"
  · simp only [h1, if_true]; split_ifs <;> simp_all
  by_cases h2 : entry.key = "address"
  · simp only [h2, if_true]; split_ifs <;> simp_all [nm_ip4_config_set_address]
  by_cases h3 : entry.key = "netmask"
  · simp only [h3, if_true]; split_ifs <;> simp_all [nm_ip4_config_set_netmask]
  by_cases h4 : entry.key = "gateway"
  · simp only [h4, if_true]; split_ifs <;> simp_all [nm_ip4_config_set_gateway]
  by_cases h5 : entry.key = "dns_server"
  · simp only [h5, if_true]
    split_ifs <;> simp_all [foldl_nm_ip4_config_add_nameserver]
  simp [h1, h2, h3, h4, h5]

/-- The gateway after one entry. -/
theorem parse_ip4_config_entry_gateway (entry : NMUDictEntry) (st : ParseState) :
    (parse_ip4_config_entry entry st).config.gateway =
      if is_gateway_entry entry then entry.uint32_value else st.config.gateway := by
  rw [parse_ip4_config_entry_cases]
  unfold is_gateway_entry
  by_cases h1 : entry.key = "interface"
  · simp only [h1, if_true]; split_ifs <;> simp_all
  by_cases h2 : entry.key = "address"
  · simp only [h2, if_true]; split_ifs <;> simp_all [nm_ip4_config_set_address]
  by_cases h3 : entry.key = "netmask"
  · simp only [h3, if_true]; split_ifs <;> simp_all [nm_ip4_config_set_netmask]
  by_cases h4 : entry.key = "gateway"
  · simp only [h4, if_true]; split_ifs <;> simp_all [nm_ip4_config_set_gateway]
  by_cases h5 : entry.key = "dns_server"
  · simp only [h5, if_true]
    split_ifs <;> simp_all [foldl_nm_ip4_config_add_nameserver]
  simp [h1, h2, h3, h4, h5]

/-- The address after all entries. -/
theorem foldl_parse_ip4_config_entry_address (entries : List NMUDictEntry) (st : ParseState) :
    (entries.foldl (fun st entry => parse_ip4_config_entry entry st) st).config.address =
      (supplied_address entries).getD st.config.address := by
  induction entries using List.reverseRecOn with
  | nil => rfl
  | append_singleton l entry ih =>
    rw [List.foldl_append, List.foldl_cons, List.foldl_nil, parse_ip4_config_entry_address, ih]
    unfold supplied_address
    rw [List.filter_append]
    by_cases hn : is_address_entry entry
    · simp [hn, List.filter_cons]
    · simp [hn, List.filter_cons]

/-- The gateway after all entries. -/
theorem foldl_parse_ip4_config_entry_gateway (entries : List NMUDictEntry) (st : ParseState) :
    (entries.foldl (fun st entry => parse_ip4_config_entry entry st) st).config.gateway =
      (supplied_gateway entries).getD st.config.gateway := by
  induction entries using List.reverseRecOn with
  | nil => rfl
  | append_singleton l entry ih =>
    rw [List.foldl_append, List.foldl_cons, List.foldl_nil, parse_ip4_config_entry_gateway, ih]
    unfold supplied_gateway
    rw [List.filter_append]
    by_cases hn : is_gateway_entry entry
    · simp [hn, List.filter_cons]
    · simp [hn, List.filter_cons]

/-- An entry that is not well typed, or whose key is unknown, changes
nothing. -/
theorem parse_ip4_config_entry_ignored (entry : NMUDictEntry) (st : ParseState)
    (h : is_well_typed_entry entry = false) : parse_ip4_config_entry entry st = st := by
  rw [parse_ip4_config_entry_cases]
  simp only [is_well_typed_entry, is_string_interface_entry, is_address_entry,
    is_netmask_entry, is_gateway_entry, is_dns_server_entry, Bool.or_eq_false_iff,
    Bool.and_eq_false_iff, beq_eq_false_iff_ne, ne_eq] at h
  obtain ⟨⟨⟨⟨hi, ha⟩, hn⟩, hg⟩, hd⟩ := h
  by_cases h1 : entry.key = "interface"
  · have : entry.type ≠ DBUS_TYPE_STRING := by tauto
    simp [h1, this]
  by_cases h2 : entry.key = "address"
  · have : entry.type ≠ DBUS_TYPE_UINT32 := by tauto
    simp [h2, this]
  by_cases h3 : entry.key = "netmask"
  · have : entry.type ≠ DBUS_TYPE_UINT32 := by tauto
    simp [h3, this]
  by_cases h4 : entry.key = "gateway"
  · have : entry.type ≠ DBUS_TYPE_UINT32 := by tauto
    simp [h4, this]
  by_cases h5 : entry.key = "dns_server"
  · have : ¬ (entry.type = DBUS_TYPE_ARRAY ∧ entry.array_type = DBUS_TYPE_UINT32) := by tauto
    simp [h5, this]
  simp [h1, h2, h3, h4, h5]

/-- The loop fails on a dictionary with an entry that cannot be read. -/
theorem parse_ip4_config_loop_none (l : List (Option NMUDictEntry)) (st : ParseState)
    (h : none ∈ l) : parse_ip4_config_loop l st = none := by
  induction l generalizing st with
  | nil => simp at h
  | cons o rest ih =>
    cases o with
    | none => rfl
    | some entry =>
      simp only [parse_ip4_config_loop]
      exact ih _ (by simpa using h)

/-- C28 as stated fails for a repeated scalar key: in a dictionary whose
entries can all be read, the last well-typed interface entry has the empty
name and the last well-typed netmask entry has the value 0, and the parse
returns the interface name ppp0 of the earlier entry and the netmask
0x00FF. -/
theorem parse_ip4_config_last_value_not_kept :
    none ∉ message_repeated_keys.dict.getD [] ∧
    last_interface_value (dict_entries message_repeated_keys) = some "" ∧
    supplied_netmask (dict_entries message_repeated_keys) = some 0 ∧
    parse_ip4_config config_zero message_repeated_keys none none =
      (true, some "ppp0", some ⟨0, 0x00FF, 0, []⟩) := by
  refine ⟨by decide, by decide, by decide, by decide⟩

/-- C28, amended: a dictionary whose entries can all be read is accepted; in
the result the address and the gateway are the values of the last well-typed
entry of that key, the netmask is the value of the last well-typed netmask
entry with 0 replaced by 0x00FF, the interface name is that of the last
well-typed interface entry with a name that is not empty, each falling back
to what was there before the loop, and the nameservers of all well-typed
dns_server entries are appended in order; an entry with a known key and the
wrong value type or element type, or with an unknown key, leaves interface
name and configuration as they were, so the dictionary without it parses to
the same result; a dictionary with an entry that cannot be read is refused
with neither a configuration nor an interface name. -/
theorem parse_ip4_config_robust (new_config : NMIP4Config) (interface : Option String)
    (config : Option NMIP4Config) (is_signal : Bool) (iface member : String)
    (arg : Option Nat) :
    (∀ entries : List NMUDictEntry, ∃ result,
      parse_ip4_config new_config ⟨is_signal, iface, member, arg, some (entries.map some)⟩
          interface config =
        (true, (match reported_interface entries with
                | none => interface
                | some name => some name), some result) ∧
      result.address = (supplied_address entries).getD new_config.address ∧
      result.netmask = (match supplied_netmask entries with
                        | none => new_config.netmask
                        | some value => if value ≠ 0 then value else 0x00FF) ∧
      result.gateway = (supplied_gateway entries).getD new_config.gateway ∧
      result.nameservers = new_config.nameservers ++ supplied_nameservers entries) ∧
    (∀ (entry : NMUDictEntry) (st : ParseState), is_well_typed_entry entry = false →
      parse_ip4_config_entry entry st = st) ∧
    (∀ (front back : List NMUDictEntry) (entry : NMUDictEntry),
      is_well_typed_entry entry = false →
      parse_ip4_config new_config
          ⟨is_signal, iface, member, arg, some ((front ++ entry :: back).map some)⟩
          interface config =
        parse_ip4_config new_config
          ⟨is_signal, iface, member, arg, some ((front ++ back).map some)⟩ interface config) ∧
    (∀ l : List (Option NMUDictEntry), none ∈ l →
      parse_ip4_config new_config ⟨is_signal, iface, member, arg, some l⟩ interface config =
        (false, none, none)) := by
  refine ⟨fun entries => ?_, fun entry st h => parse_ip4_config_entry_ignored entry st h,
    fun front back entry h => ?_, fun l h => ?_⟩
  · refine ⟨(entries.foldl (fun st entry => parse_ip4_config_entry entry st)
      ⟨interface, new_config⟩).config, ?_, ?_, ?_, ?_, ?_⟩
    · simp only [parse_ip4_config, parse_ip4_config_loop_map_some]
      rw [foldl_parse_ip4_config_entry_interface]
    · rw [foldl_parse_ip4_config_entry_address]
    · exact (foldl_parse_ip4_config_entry_netmask _ _).trans
        (by cases supplied_netmask entries <;> rfl)
    · rw [foldl_parse_ip4_config_entry_gateway]
    · rw [foldl_parse_ip4_config_entry_nameservers]
  · simp only [parse_ip4_config, parse_ip4_config_loop_map_some, List.foldl_append,
      List.foldl_cons, parse_ip4_config_entry_ignored entry _ h]
  · simp only [parse_ip4_config, parse_ip4_config_loop_none l _ h]
/-! ## Properties of the reply handlers of NMClient -/

/-- C21: for `activate_connection_cb`, `_add_and_activate_connection_done`,
`_add_connection_cb` and `checkpoint_create_cb`: on an error reply the only
effect is that the task is completed, once, with the reply's error after
`g_dbus_error_strip_remote_error`, and no wait is registered; on a reply
with a path the task is not completed and the only effect is one call of the
wait function with the returned path, the task, and the extra result of the
reply where the handler reads one. -/
theorem reply_handlers_complete_or_wait (g_dbus_error_strip_remote_error : GError → GError)
    (task : GTask) :
    (∀ (error : GError) (flag : Bool) (effects : List ClientEffect),
      (effects = activate_connection_cb g_dbus_error_strip_remote_error (.error error) task ∨
       effects = _add_and_activate_connection_done g_dbus_error_strip_remote_error
          (.error error) flag task ∨
       effects = _add_connection_cb g_dbus_error_strip_remote_error (.error error) flag task ∨
       effects = checkpoint_create_cb g_dbus_error_strip_remote_error (.error error) task) →
      effects = [.g_task_return_error task (g_dbus_error_strip_remote_error error)] ∧
      (effects.filter (ClientEffect.completes task)).length = 1 ∧
      effects.filterMap ClientEffect.wait = []) ∧
    (∀ reply : PathReply,
      activate_connection_cb g_dbus_error_strip_remote_error (.ok reply) task =
        [.nm_manager_wait_for_active_connection reply.v_path none none task] ∧
      _add_connection_cb g_dbus_error_strip_remote_error (.ok reply) true task =
        [.nm_remote_settings_wait_for_connection reply.v_path reply.v_result task] ∧
      _add_connection_cb g_dbus_error_strip_remote_error (.ok reply) false task =
        [.nm_remote_settings_wait_for_connection reply.v_path none task] ∧
      checkpoint_create_cb g_dbus_error_strip_remote_error (.ok reply) task =
        [.nm_manager_wait_for_checkpoint reply.v_path task]) ∧
    (∀ reply : ActivateReply,
      _add_and_activate_connection_done g_dbus_error_strip_remote_error (.ok reply) true task =
        [.nm_manager_wait_for_active_connection reply.v_active_connection (some reply.v_path)
          reply.v_result task] ∧
      _add_and_activate_connection_done g_dbus_error_strip_remote_error (.ok reply) false
          task =
        [.nm_manager_wait_for_active_connection reply.v_active_connection (some reply.v_path)
          none task]) ∧
    (∀ (reply : PathReply) (other : ActivateReply) (flag : Bool) (effects : List ClientEffect),
      (effects = activate_connection_cb g_dbus_error_strip_remote_error (.ok reply) task ∨
       effects = _add_connection_cb g_dbus_error_strip_remote_error (.ok reply) flag task ∨
       effects = checkpoint_create_cb g_dbus_error_strip_remote_error (.ok reply) task ∨
       effects = _add_and_activate_connection_done g_dbus_error_strip_remote_error
          (.ok ⟨other.v_path, reply.v_path, other.v_result⟩) flag task) →
      effects.filter (ClientEffect.completes task) = [] ∧
      effects.filterMap ClientEffect.wait = [(reply.v_path, task)]) := by
  refine ⟨?_, fun reply => ⟨rfl, rfl, rfl, rfl⟩, fun reply => ⟨rfl, rfl⟩, ?_⟩
  · intro error flag effects h
    have he : effects =
        [.g_task_return_error task (g_dbus_error_strip_remote_error error)] := by
      rcases h with h | h | h | h <;> exact h
    subst he
    simp [ClientEffect.completes, ClientEffect.wait]
  · intro reply other flag effects h
    rcases h with h | h | h | h <;> subst h <;>
      simp [activate_connection_cb, _add_connection_cb, checkpoint_create_cb,
        _add_and_activate_connection_done, ClientEffect.completes, ClientEffect.wait]

/-! ## Properties of the requests that add a connection -/

/-- C25: when the two flag values differ, `nm_client_add_connection2` with
`ignore_out_result` FALSE issues AddConnection2; with `ignore_out_result`
TRUE it issues AddConnection when the flags are exactly TO_DISK,
AddConnectionUnsaved when they are exactly IN_MEMORY and AddConnection2
otherwise; `nm_client_add_connection_async` issues AddConnection when
`save_to_disk` is TRUE and AddConnectionUnsaved otherwise.  Each request
carries the settings. -/
theorem _add_connection_call_method (TO_DISK IN_MEMORY : Nat) (h : TO_DISK ≠ IN_MEMORY)
    (settings : SettingsVariant) (flags : Nat) (args : Option VardictVariant)
    (save_to_disk : Bool) :
    nm_client_add_connection2 TO_DISK IN_MEMORY (some settings) flags args false =
      ⟨.nm_client_add_connection2, "AddConnection2",
        .settings_flags_args settings (flags % 2 ^ 32) (args.getD []), "(oa{sv})", true⟩ ∧
    nm_client_add_connection2 TO_DISK IN_MEMORY (some settings) flags args true =
      (if flags = TO_DISK then
        ⟨.nm_client_add_connection2, "AddConnection", .settings_only settings, "(o)", false⟩
      else if flags = IN_MEMORY then
        ⟨.nm_client_add_connection2, "AddConnectionUnsaved", .settings_only settings, "(o)",
          false⟩
      else
        ⟨.nm_client_add_connection2, "AddConnection2",
          .settings_flags_args settings (flags % 2 ^ 32) (args.getD []), "(oa{sv})", true⟩) ∧
    nm_client_add_connection_async TO_DISK IN_MEMORY (some settings) save_to_disk =
      some ⟨.nm_client_add_connection_async,
        if save_to_disk then "AddConnection" else "AddConnectionUnsaved",
        .settings_only settings, "(o)", false⟩ := by
  refine ⟨?_, ?_, ?_⟩
  · simp [nm_client_add_connection2, _add_connection_call]
  · simp [nm_client_add_connection2, _add_connection_call]
  · cases save_to_disk
    · simp [nm_client_add_connection_async, _add_connection_call, h.symm]
    · simp [nm_client_add_connection_async, _add_connection_call]

/-- Witness of `_add_connection_call_method`: the flag values 1 and 2, the
flags 2, no extra arguments, `save_to_disk` FALSE. -/
theorem _add_connection_call_method_witness :
    (1 : Nat) ≠ 2 ∧
    nm_client_add_connection2 1 2 (some []) 2 none true =
      ⟨.nm_client_add_connection2, "AddConnectionUnsaved", .settings_only [], "(o)", false⟩ ∧
    nm_client_add_connection_async 1 2 (some []) false =
      some ⟨.nm_client_add_connection_async, "AddConnectionUnsaved", .settings_only [], "(o)",
        false⟩ :=
  ⟨by decide,
    by simpa using (_add_connection_call_method 1 2 (by decide) [] 2 none false).2.1,
    by simpa using (_add_connection_call_method 1 2 (by decide) [] 2 none false).2.2⟩

/-- C27 fails on the code: with `ignore_out_result` TRUE and the flags
exactly TO_DISK or exactly IN_MEMORY, `_add_connection_call` issues
AddConnection or AddConnectionUnsaved with the settings only, whatever the
extra arguments; the arguments of `args_example` are not part of the
request. -/
theorem _add_connection_call_drops_args (TO_DISK IN_MEMORY : Nat) (source_tag : SourceTag)
    (settings : SettingsVariant) (args : Option VardictVariant) :
    _add_connection_call TO_DISK IN_MEMORY source_tag true (some settings) TO_DISK args =
      ⟨source_tag, "AddConnection", .settings_only settings, "(o)", false⟩ ∧
    (TO_DISK ≠ IN_MEMORY →
      _add_connection_call TO_DISK IN_MEMORY source_tag true (some settings) IN_MEMORY args =
        ⟨source_tag, "AddConnectionUnsaved", .settings_only settings, "(o)", false⟩) ∧
    args_example ≠ [] ∧
    nm_client_add_connection2 1 2 (some settings) 1 (some args_example) true =
      ⟨.nm_client_add_connection2, "AddConnection", .settings_only settings, "(o)", false⟩ := by
  refine ⟨?_, ?_, by decide, ?_⟩
  · simp [_add_connection_call]
  · intro h
    simp [_add_connection_call, h.symm]
  · simp [nm_client_add_connection2, _add_connection_call]

/-! ## Properties of the finish functions of NMClient -/

/-- C24 fails on the code: `nm_client_check_connectivity_finish` passes the
client where `nm_g_task_is_valid` expects the task, so the check fails for
every client and every result: the function returns `NM_CONNECTIVITY_UNKNOWN`
with no error set, also for the task of the client at address 1 with the tag
of `nm_client_check_connectivity_async` and the reply 4; the sibling
`nm_client_save_hostname_finish` accepts the task of its client and tag. -/
theorem nm_client_check_connectivity_finish_rejects_own_task (UNKNOWN : Nat)
    (client result : GPointer Nat) :
    nm_client_check_connectivity_finish UNKNOWN client result = (UNKNOWN, none) ∧
    nm_client_check_connectivity_finish 0 (.NM_CLIENT 1)
      (.G_TASK 2 ⟨1, .nm_client_check_connectivity_async, .ok 4⟩) = (0, none) ∧
    nm_client_save_hostname_finish (.NM_CLIENT 1)
      (.G_TASK 2 ⟨1, .nm_client_save_hostname_async, .ok true⟩) = (true, none) := by
  refine ⟨?_, rfl, rfl⟩
  cases client <;> simp [nm_client_check_connectivity_finish, NM_IS_CLIENT, nm_g_task_is_valid]

/-- C22 fails on the code: on a reply `(b, failed_files)` both functions
return TRUE with no error, and the array of filenames is stored in the
parameter `failures`, so the caller's variable holds what it held at the call:
NULL here, not the file name of the reply. -/
theorem nm_client_load_connections_failures_not_set (b : Bool) (failed_files : List String)
    (caller_failures : Option (List String)) (address : Nat) :
    nm_client_load_connections (.ok (b, failed_files)) caller_failures =
      ⟨true, caller_failures, .strv failed_files, none⟩ ∧
    nm_client_load_connections_finish (.NM_CLIENT 1)
        (.G_TASK address ⟨1, .nm_client_load_connections_async, .ok (b, failed_files)⟩)
        caller_failures =
      ⟨true, caller_failures, .strv failed_files, none⟩ ∧
    (nm_client_load_connections (.ok (true, ["/etc/NetworkManager/a.nmconnection"]))
      none).caller_failures = none := by
  refine ⟨rfl, ?_, rfl⟩
  simp [nm_client_load_connections_finish, NM_IS_CLIENT, nm_g_task_is_valid, GPointer.address]

/-! ## Properties of the object cache of NMClient -/

/-- C23 fails on the code: `unhook_om` emits device-removed for every device
that `nm_manager_get_all_devices` returns; for a manager with the device 1 and
the placeholder 2 it emits device-removed for 2, which is not among the
devices that `nm_manager_get_devices` returns. -/
theorem unhook_om_device_removed_for_placeholder :
    (∀ (active_connections all_devices connections : NMObject → List Nat)
        (priv : NMClientPrivate) (manager : NMObject) (device : Nat),
      priv.manager = some manager → device ∈ all_devices manager →
      NMClientSignal.DEVICE_REMOVED device ∈
        (unhook_om active_connections all_devices connections priv).2) ∧
    2 ∉ devices_example manager_example ∧
    (unhook_om (fun _ => []) all_devices_example (fun _ => []) client_running).2 =
      [.DEVICE_REMOVED 1, .DEVICE_REMOVED 2, .notify .ACTIVE_CONNECTIONS,
        .notify .NM_RUNNING] := by
  refine ⟨?_, by decide, by decide⟩
  intro active_connections all_devices connections priv manager device hm hd
  unfold unhook_om
  cases hs : priv.settings <;> simp [hm, hs] <;> tauto

/-- C29 fails on the code: for an object manager with the manager object and
no settings object `objects_created` returns FALSE after it has set
`priv->manager`; `got_object_manager` leaves a client for which
`nm_client_get_nm_running` is TRUE and whose settings object is not set. -/
theorem objects_created_failure_keeps_manager :
    (objects_created client_env client_new object_manager_no_settings).returned = false ∧
    (objects_created client_env client_new object_manager_no_settings).error =
      some (NM_CLIENT_ERROR_MANAGER_NOT_RUNNING "Settings object not found") ∧
    (objects_created client_env client_new object_manager_no_settings).priv.manager =
      some manager_example ∧
    (objects_created client_env client_new object_manager_no_settings).priv.settings = none ∧
    nm_client_get_nm_running
      (got_object_manager client_env client_new (.ok object_manager_no_settings)
        (some ":1.5")).priv = true ∧
    (got_object_manager client_env client_new (.ok object_manager_no_settings)
      (some ":1.5")).priv.settings = none := by
  refine ⟨by decide, by decide, by decide, by decide, by decide, by decide⟩

/-- C30 fails on the code: the loop of `obj_nm_for_gdbus_object` ends at the
first recognised interface, so an object whose interfaces are the generic
active-connection interface followed by the VPN interface becomes an
`NM_TYPE_ACTIVE_CONNECTION`, and an `NM_TYPE_VPN_CONNECTION` only when the VPN
interface comes first. -/
theorem obj_nm_for_gdbus_object_vpn_after_generic :
    (∀ l : List InterfaceName,
      obj_nm_type_loop (.NM_DBUS_INTERFACE_ACTIVE_CONNECTION :: l) .G_TYPE_INVALID =
        .NM_TYPE_ACTIVE_CONNECTION) ∧
    InterfaceName.NM_DBUS_INTERFACE_VPN_CONNECTION ∈ object_vpn_generic_first.interfaces ∧
    (obj_nm_for_gdbus_object client_env client_new object_vpn_generic_first).2.2 =
      some ⟨.NM_TYPE_ACTIVE_CONNECTION,
        "/org/freedesktop/NetworkManager/ActiveConnection/1", none⟩ ∧
    (obj_nm_for_gdbus_object client_env client_new object_vpn_first).2.2 =
      some ⟨.NM_TYPE_VPN_CONNECTION,
        "/org/freedesktop/NetworkManager/ActiveConnection/1", none⟩ := by
  refine ⟨fun l => ?_, by decide, by decide, by decide⟩
  simp [obj_nm_type_loop, obj_nm_type_of_interface]

end NetworkManager
